import Mathlib

/-!
texfile.cc: writing commands to a TeX file.

A shallow embedding of `camp::texfile` (src/texfile.cc).

* A `double` is embedded as an exact rational number: finite values,
  arithmetic without rounding.
* The output stream `*out` is embedded as the list of insertions (`<<`) made
  into it, in order: a string, a `double`, or the manipulator `newl`.
* Everything the file uses but does not define (the settings functions, the
  pen class, the inherited PostScript writer, the preamble writers, the
  constant `ps2tex`) is a field of the environment `Env`, so every theorem
  holds for every such collaborator.
-/

namespace camp

/-- One insertion into the output stream. -/
inductive Tok where
  | str (s : String)
  | num (x : ℚ)
  | newl
deriving DecidableEq

/-- The class `pair`: a point of the plane. -/
structure pair where
  x : ℚ
  y : ℚ
deriving DecidableEq

/-- The class `bbox`: the four edges of a bounding box. -/
structure bbox where
  left : ℚ
  bottom : ℚ
  right : ℚ
  top : ℚ
deriving DecidableEq

/-- The class `transform`: the affine map
`(a, b) ↦ (x + xx*a + xy*b, y + yx*a + yy*b)`. -/
structure transform where
  x : ℚ
  y : ℚ
  xx : ℚ
  xy : ℚ
  yx : ℚ
  yy : ℚ
deriving DecidableEq

/-- Modelled from the spec: `shift(z)`, declared outside texfile.cc, is the
translation by `z`. -/
def shift (z : pair) : transform :=
  { x := z.x, y := z.y, xx := 1, xy := 0, yx := 0, yy := 1 }

/-- The collaborators of texfile.cc: what it calls or reads but does not
define. -/
structure Env where
  /-- The class `pen`. -/
  Pen : Type
  /-- The class `path`. -/
  Path : Type
  /-- The setting `getSetting<string>("tex")`. -/
  tex : String
  /-- The setting `getSetting<bool>("inlinetex")`. -/
  inlinetex : Bool
  /-- The function `settings::latex`. -/
  latex : String → Bool
  /-- The function `settings::pdf`. -/
  pdf : String → Bool
  /-- The function `settings::beginspecial`. -/
  beginspecial : String → String
  /-- The function `settings::endspecial`. -/
  endspecial : String
  /-- The constant `ps2tex`. -/
  ps2tex : ℚ
  cmyk : Pen → Bool
  rgb : Pen → Bool
  grayscale : Pen → Bool
  cyan : Pen → ℚ
  magenta : Pen → ℚ
  yellow : Pen → ℚ
  black : Pen → ℚ
  red : Pen → ℚ
  green : Pen → ℚ
  blue : Pen → ℚ
  gray : Pen → ℚ
  size : Pen → ℚ
  Lineskip : Pen → ℚ
  Font : Pen → String
  /-- The method `pen::convert`, as a function of the pen it is called on. -/
  convert : Pen → Pen
  /-- The comparison `operator ==` of two pens. -/
  peneq : Pen → Pen → Bool
  /-- The pen that `resetpen()` stores in `lastpen`. -/
  resetpen : Pen
  /-- What `psfile::setcolor(p, begin, end)` inserts, given `p`, the cached
  pen and the two markers. -/
  setcolor : Pen → Pen → String → String → List Tok
  /-- What `psfile::gsave(tex)` inserts. -/
  gsave : Bool → List Tok
  /-- What `psfile::grestore(tex)` inserts. -/
  grestore : Bool → List Tok
  /-- What `psfile::write(p, newPath)` inserts. -/
  write : Path → Bool → List Tok
  /-- The method `path::transformed`. -/
  transformed : Path → transform → Path
  /-- What `texdocumentclass` inserts. -/
  texdocumentclass : List Tok
  /-- What `texuserpreamble` inserts. -/
  texuserpreamble : List Tok
  /-- What `texfontencoding` inserts. -/
  texfontencoding : List Tok
  /-- What `texpreamble(out, TeXpreamble, ASYdefines, ASYdefines)` inserts,
  given the flag `ASYdefines`. -/
  texpreamble : Bool → List Tok
  /-- What `texdefines(out, TeXpreamble, false)` inserts. -/
  texdefines : List Tok

/-- The class `texfile`: its data members, the content of the stream `out`,
and the content of the side file `auxname(outname, "pre")` (`none` while the
file does not exist). -/
structure texfile (E : Env) where
  texengine : String
  inlinetex : Bool
  Hoffset : ℚ
  box : bbox
  lastpen : E.Pen
  out : List Tok
  prefile : Option (List Tok)

variable {E : Env}

/-- The insertion `*out << ...` of a run of items. -/
def texfile.emit (s : texfile E) (items : List Tok) : texfile E :=
  { s with out := s.out ++ items }

/-- The constructor `texfile::texfile(texname, box)`. `opened` tells whether
the stream on `texname` could be opened; `prefile` is the side file as found
on disk. A stream that cannot be opened throws `handled_error`. -/
def texfile.ctor (E : Env) (opened : Bool) (prefile : Option (List Tok))
    (box : bbox) : Option (texfile E) :=
  let texengine := E.tex
  let inlinetex := E.inlinetex
  let Hoffset := if inlinetex then box.right else box.left
  if !opened then none
  else
    some { texengine := texengine, inlinetex := inlinetex, Hoffset := Hoffset,
           box := box, lastpen := E.resetpen, out := E.texdocumentclass,
           prefile := prefile }

/-- The method `texfile::miniprologue`. -/
def texfile.miniprologue (s : texfile E) : texfile E :=
  let s := s.emit E.texuserpreamble
  let s := s.emit [.str "\\pagestyle\x7bempty\x7d", .newl]
  let s := s.emit [.str "\\begin\x7bdocument\x7d", .newl]
  s.emit E.texfontencoding

/-- The method `texfile::prologue`. The local `voffset`, which is computed
and never read, is left out. -/
def texfile.prologue (s : texfile E) : texfile E :=
  let s :=
    if s.inlinetex then
      let ASYdefines := !s.prefile.isSome
      { s with prefile := some (s.prefile.getD [] ++ E.texpreamble ASYdefines) }
    else s
  let s := s.emit E.texdefines
  let width := s.box.right - s.box.left
  let height := s.box.top - s.box.bottom
  let s :=
    if E.pdf s.texengine && !s.inlinetex then
      let s := if width > 0 then
        s.emit [.str "\\pdfpagewidth=", .num width, .str "bp", .newl] else s
      if height > 0 then
        s.emit [.str "\\pdfpageheight=", .num height, .str "bp", .newl] else s
    else s
  if E.latex s.texengine then
    let s := s.emit [.str "\\setlength\x7b\\unitlength\x7d\x7b1pt\x7d", .newl]
    if !s.inlinetex then
      let s := s.emit [.str "\\pagestyle\x7bempty\x7d", .newl,
                       .str "\\textheight=", .num (height + 18), .str "bp", .newl,
                       .str "\\textwidth=", .num (width + 18), .str "bp", .newl]
      let s := if E.pdf s.texengine then
        s.emit [.str "\\oddsidemargin=-89.9pt", .newl,
                .str "\\evensidemargin=\\oddsidemargin", .newl,
                .str "\\topmargin=-109.27pt", .newl] else s
      s.emit [.str "\\begin\x7bdocument\x7d", .newl]
    else s
  else
    if E.pdf s.texengine then
      s.emit [.str "\\hoffset=-92.27pt", .newl, .str "\\voffset=-72.27pt", .newl]
    else
      s.emit [.str "\\hoffset=36.6pt", .newl, .str "\\voffset=54.0pt", .newl]

/-- The method `texfile::beginlayer`. -/
def texfile.beginlayer (s : texfile E) (psname : String) : texfile E :=
  if s.box.right > s.box.left && s.box.top > s.box.bottom then
    let s := s.emit [.str "\\includegraphics"]
    let s := if !E.pdf s.texengine then
      s.emit [.str "[bb=", .num s.box.left, .str " ", .num s.box.bottom, .str " ",
              .num s.box.right, .str " ", .num s.box.top, .str "]"] else s
    let s := s.emit [.str "\x7b", .str psname, .str "\x7d%", .newl]
    if !s.inlinetex then
      s.emit [.str "\\kern-", .num ((s.box.right - s.box.left) * E.ps2tex),
              .str "pt%", .newl]
    else s
  else s

/-- The method `texfile::endlayer`. -/
def texfile.endlayer (s : texfile E) : texfile E :=
  if s.inlinetex && (s.box.right > s.box.left && s.box.top > s.box.bottom) then
    s.emit [.str "\\kern-", .num ((s.box.right - s.box.left) * E.ps2tex),
            .str "pt%", .newl]
  else s

/-- The method `texfile::writeshifted`. -/
def texfile.writeshifted (s : texfile E) (p : E.Path) (newPath : Bool) :
    texfile E :=
  s.emit (E.write (E.transformed p (shift ⟨-s.Hoffset, -s.box.bottom⟩)) newPath)

/-- The method `texfile::setlatexcolor`. -/
def texfile.setlatexcolor (s : texfile E) (p : E.Pen) : texfile E :=
  if E.cmyk p && (!E.cmyk s.lastpen ||
      (E.cyan p != E.cyan s.lastpen ||
       E.magenta p != E.magenta s.lastpen ||
       E.yellow p != E.yellow s.lastpen ||
       E.black p != E.black s.lastpen)) then
    s.emit [.str "\\definecolor\x7bASYcolor\x7d\x7bcmyk\x7d\x7b",
            .num (E.cyan p), .str ",", .num (E.magenta p), .str ",",
            .num (E.yellow p), .str ",", .num (E.black p),
            .str "\x7d\\color\x7bASYcolor\x7d", .newl]
  else if E.rgb p && (!E.rgb s.lastpen ||
      (E.red p != E.red s.lastpen ||
       E.green p != E.green s.lastpen ||
       E.blue p != E.blue s.lastpen)) then
    s.emit [.str "\\definecolor\x7bASYcolor\x7d\x7brgb\x7d\x7b",
            .num (E.red p), .str ",", .num (E.green p), .str ",",
            .num (E.blue p), .str "\x7d\\color\x7bASYcolor\x7d", .newl]
  else if E.grayscale p && (!E.grayscale s.lastpen ||
      E.gray p != E.gray s.lastpen) then
    s.emit [.str "\\definecolor\x7bASYcolor\x7d\x7bgray\x7d\x7b",
            .num (E.gray p), .str "\x7d\\color\x7bASYcolor\x7d", .newl]
  else s

/-- The method `texfile::setfont`. -/
def texfile.setfont (s : texfile E) (p : E.Pen) : texfile E :=
  let s1 :=
    if (E.size p != E.size s.lastpen || E.Lineskip p != E.Lineskip s.lastpen) &&
        E.latex s.texengine then
      s.emit [.str "\\fontsize\x7b", .num (E.size p), .str "\x7d\x7b",
              .num (E.Lineskip p), .str "\x7d\\selectfont", .newl]
    else s
  let s2 :=
    if E.Font p != E.Font s1.lastpen then
      s1.emit [.str (E.Font p), .str "%", .newl]
    else s1
  { s2 with lastpen := p }

/-- The method `texfile::setpen`. -/
def texfile.setpen (s : texfile E) (p : E.Pen) : texfile E :=
  let latex := E.latex s.texengine
  let p := E.convert p
  if E.peneq p s.lastpen then s
  else
    let s1 :=
      if latex then s.setlatexcolor p
      else s.emit (E.setcolor p s.lastpen (E.beginspecial s.texengine) E.endspecial)
    s1.setfont p

/-- The method `texfile::gsave`. -/
def texfile.gsave (s : texfile E) : texfile E :=
  let s := s.emit [.str (E.beginspecial s.texengine)]
  let s := s.emit (E.gsave true)
  s.emit [.str E.endspecial, .newl]

/-- The method `texfile::grestore`. -/
def texfile.grestore (s : texfile E) : texfile E :=
  let s := s.emit [.str (E.beginspecial s.texengine)]
  let s := s.emit (E.grestore true)
  s.emit [.str E.endspecial, .newl]

/-- The method `texfile::beginspecial`. -/
def texfile.beginspecial (s : texfile E) : texfile E :=
  s.emit [.str (E.beginspecial s.texengine)]

/-- The method `texfile::endspecial`. -/
def texfile.endspecial (s : texfile E) : texfile E :=
  s.emit [.str E.endspecial, .newl]

/-- The method `texfile::beginraw`. -/
def texfile.beginraw (s : texfile E) : texfile E :=
  s.emit [.str "\\ASYraw\x7b", .newl]

/-- The method `texfile::endraw`. -/
def texfile.endraw (s : texfile E) : texfile E :=
  s.emit [.str "\x7d%", .newl]

/-- The method `texfile::put`. -/
def texfile.put (s : texfile E) (label : String) (T : transform) (z : pair)
    (align : pair) : texfile E :=
  let sign : ℚ := if E.pdf s.texengine then 1 else -1
  if label = "" then s
  else
    let s := s.emit [.str "\\ASYalign",
                     .str "(", .num ((z.x - s.Hoffset) * E.ps2tex),
                     .str ",", .num ((z.y - s.box.bottom) * E.ps2tex),
                     .str ")(", .num align.x,
                     .str ",", .num align.y,
                     .str ")\x7b"]
    s.emit [.num T.xx, .str " ", .num (sign * T.yx),
            .str " ", .num (sign * T.xy), .str " ", .num T.yy,
            .str "\x7d\x7b", .str label, .str "\x7d", .newl]

/-- The method `texfile::epilogue`. The final `out->flush()` leaves the
content of the stream as it is. -/
def texfile.epilogue (s : texfile E) : texfile E :=
  if E.latex s.texengine then
    if !s.inlinetex then
      s.emit [.str "\\end\x7bdocument\x7d", .newl]
    else s
  else
    s.emit [.str "\\bye", .newl]

/-- A call of one method of `texfile`, with its arguments. -/
inductive Call (E : Env) where
  | miniprologue
  | prologue
  | beginlayer (psname : String)
  | endlayer
  | writeshifted (p : E.Path) (newPath : Bool)
  | setlatexcolor (p : E.Pen)
  | setfont (p : E.Pen)
  | setpen (p : E.Pen)
  | gsave
  | grestore
  | beginspecial
  | endspecial
  | beginraw
  | endraw
  | put (label : String) (T : transform) (z : pair) (align : pair)
  | epilogue

/-- The emitter after one call. -/
def texfile.call (s : texfile E) : Call E → texfile E
  | .miniprologue => s.miniprologue
  | .prologue => s.prologue
  | .beginlayer psname => s.beginlayer psname
  | .endlayer => s.endlayer
  | .writeshifted p newPath => s.writeshifted p newPath
  | .setlatexcolor p => s.setlatexcolor p
  | .setfont p => s.setfont p
  | .setpen p => s.setpen p
  | .gsave => s.gsave
  | .grestore => s.grestore
  | .beginspecial => s.beginspecial
  | .endspecial => s.endspecial
  | .beginraw => s.beginraw
  | .endraw => s.endraw
  | .put label T z align => s.put label T z align
  | .epilogue => s.epilogue

/-- The emitter after a sequence of calls, first call first. -/
def texfile.calls (s : texfile E) (cs : List (Call E)) : texfile E :=
  cs.foldl texfile.call s

/-- Text of a `double` inserted into a stream in `std::ios::fixed` notation
with `precision(6)`, as the constructor sets the stream: the value rounded
to six decimals, ties to even. -/
def fixed6 (q : ℚ) : String :=
  let a : ℕ := q.num.natAbs * 1000000
  let f : ℕ := a / q.den
  let r : ℕ := a % q.den
  let n : ℕ :=
    if 2 * r < q.den then f
    else if q.den < 2 * r then f + 1
    else if f % 2 = 0 then f else f + 1
  let frac := toString (n % 1000000)
  (if q < 0 then "-" else "") ++ toString (n / 1000000) ++ "." ++
    String.mk (List.replicate (6 - frac.length) '0') ++ frac

/-- The characters a run of insertions leaves in the file. Modelled from the
spec: the manipulator `newl`, declared outside texfile.cc, ends the line. -/
def render : List Tok → String
  | [] => ""
  | .str s :: ts => s ++ render ts
  | .num x :: ts => fixed6 x ++ render ts
  | .newl :: ts => "\n" ++ render ts

/-- The label-placement line of section 4.4 of the specification: the macro
name, the anchor, the alignment pair, the four matrix entries in the order
written, and the label. -/
def labelMacro (anchor align : pair) (m1 m2 m3 m4 : ℚ) (label : String) :
    List Tok :=
  [.str "\\ASYalign", .str "(", .num anchor.x, .str ",", .num anchor.y,
   .str ")(", .num align.x, .str ",", .num align.y, .str ")\x7b",
   .num m1, .str " ", .num m2, .str " ", .num m3, .str " ", .num m4,
   .str "\x7d\x7b", .str label, .str "\x7d", .newl]

/-- The compensating kern line of section 4.5 of the specification, for a
box: minus the width of the box in TeX points. -/
def kernLine (E : Env) (box : bbox) : List Tok :=
  [.str "\\kern-", .num ((box.right - box.left) * E.ps2tex), .str "pt%", .newl]

/-- The image-inclusion directive of section 4.5 of the specification: with
a bounding-box clause for an engine that is not PDF-producing, without one
for a PDF-producing engine. -/
def includeLine (isPdf : Bool) (box : bbox) (psname : String) : List Tok :=
  [.str "\\includegraphics"] ++
  (if isPdf then []
   else [.str "[bb=", .num box.left, .str " ", .num box.bottom, .str " ",
         .num box.right, .str " ", .num box.top, .str "]"]) ++
  [.str "\x7b", .str psname, .str "\x7d%", .newl]

/-- A concrete pen: the three colour-model flags, the components of each
model, the font size, the line skip and the font string. -/
structure PenData where
  cmyk : Bool
  rgb : Bool
  grayscale : Bool
  cyan : ℚ
  magenta : ℚ
  yellow : ℚ
  black : ℚ
  red : ℚ
  green : ℚ
  blue : ℚ
  gray : ℚ
  size : ℚ
  Lineskip : ℚ
  Font : String
deriving DecidableEq

/-- A concrete environment: the engines `latex`, `pdflatex`, `tex` and
`pdftex`, pens compared field by field and already normalized, paths as
lists of points, one TeX point being 72/72.27 PostScript points, and no
preamble text. The setting `tex` is `engine`, the setting `inlinetex` is
`inline`. -/
def stdEnv (engine : String) (inline : Bool) : Env :=
  { Pen := PenData
    Path := List pair
    tex := engine
    inlinetex := inline
    latex := fun e => e == "latex" || e == "pdflatex"
    pdf := fun e => e == "pdflatex" || e == "pdftex"
    beginspecial := fun e =>
      if e == "pdflatex" || e == "pdftex" then "\\special\x7bpdf:" else "\\special\x7bps:"
    endspecial := "\x7d%"
    ps2tex := 72.27 / 72
    cmyk := PenData.cmyk
    rgb := PenData.rgb
    grayscale := PenData.grayscale
    cyan := PenData.cyan
    magenta := PenData.magenta
    yellow := PenData.yellow
    black := PenData.black
    red := PenData.red
    green := PenData.green
    blue := PenData.blue
    gray := PenData.gray
    size := PenData.size
    Lineskip := PenData.Lineskip
    Font := PenData.Font
    convert := fun p => p
    peneq := fun p q => decide (p = q)
    resetpen :=
      { cmyk := false, rgb := false, grayscale := false, cyan := 0, magenta := 0,
        yellow := 0, black := 0, red := 0, green := 0, blue := 0, gray := 0,
        size := 0, Lineskip := 0, Font := "" }
    setcolor := fun _ _ bgn en => [.str bgn, .str en, .newl]
    gsave := fun _ => [.str "gsave"]
    grestore := fun _ => [.str "grestore"]
    write := fun _ _ => []
    transformed := fun p T =>
      p.map fun z => ⟨T.x + T.xx * z.x + T.xy * z.y, T.y + T.yx * z.x + T.yy * z.y⟩
    texdocumentclass := []
    texuserpreamble := []
    texfontencoding := []
    texpreamble := fun _ => []
    texdefines := [] }

/-- A pen with the CMYK and the RGB model set: pure cyan, also given as
green plus blue, in a ten point font. -/
def cyanPen : PenData :=
  { cmyk := true, rgb := true, grayscale := false, cyan := 1, magenta := 0,
    yellow := 0, black := 0, red := 0, green := 1, blue := 1, gray := 0,
    size := 10, Lineskip := 12, Font := "\\rmfamily" }

/-- An emitter of `stdEnv engine inline` on the box (0,0,100,50), as the
constructor leaves it. -/
def stdFile (engine : String) (inline : Bool) : texfile (stdEnv engine inline) :=
  { texengine := engine, inlinetex := inline,
    Hoffset := if inline then 100 else 0,
    box := ⟨0, 0, 100, 50⟩, lastpen := (stdEnv engine inline).resetpen,
    out := [], prefile := none }

/-- The insertions made into the stream between two states of one emitter:
what `after` holds beyond the content of `before`. -/
def texfile.written (before after : texfile E) : List Tok :=
  after.out.drop before.out.length

/-- Modelled from the spec: the action of a `transform` on a point, declared
outside texfile.cc: the linear part applied to the point, plus the
translation. -/
def transform.apply (T : transform) (z : pair) : pair :=
  ⟨T.x + T.xx * z.x + T.xy * z.y, T.y + T.yx * z.x + T.yy * z.y⟩

/-- The calls of `put`, `beginlayer`, `endlayer`, `beginspecial`,
`endspecial`, `beginraw`, `endraw` and `epilogue`. -/
def Call.appendsOnly : Call E → Bool
  | .put _ _ _ _ => true
  | .beginlayer _ => true
  | .endlayer => true
  | .beginspecial => true
  | .endspecial => true
  | .beginraw => true
  | .endraw => true
  | .epilogue => true
  | _ => false

/-- The three colour models of a pen, in the order in which section 4.3 of
the specification inspects them. -/
inductive ColorModel where
  | cmyk
  | rgb
  | grayscale
deriving DecidableEq

/-- Whether a pen has a colour model set. -/
def modelSet (E : Env) : ColorModel → E.Pen → Bool
  | .cmyk, p => E.cmyk p
  | .rgb, p => E.rgb p
  | .grayscale, p => E.grayscale p

/-- Whether two pens differ in some component of a colour model. -/
def modelDiffers (E : Env) : ColorModel → E.Pen → E.Pen → Bool
  | .cmyk, p, q =>
    decide (E.cyan p ≠ E.cyan q ∨ E.magenta p ≠ E.magenta q ∨
      E.yellow p ≠ E.yellow q ∨ E.black p ≠ E.black q)
  | .rgb, p, q =>
    decide (E.red p ≠ E.red q ∨ E.green p ≠ E.green q ∨ E.blue p ≠ E.blue q)
  | .grayscale, p, q => decide (E.gray p ≠ E.gray q)

/-- Section 4.3 of the specification: the first model, in the order CMYK,
RGB, Grayscale, that `p` has set and that the cached pen either does not
have set or has with a different component. -/
def firstChangedModel (E : Env) (p cached : E.Pen) : Option ColorModel :=
  [ColorModel.cmyk, ColorModel.rgb, ColorModel.grayscale].find? fun m =>
    modelSet E m p && (!modelSet E m cached || modelDiffers E m p cached)

/-- The colour directive of a model: `\definecolor` with the name of the
model and the components of `p`, then `\color`. -/
def colorDirective (E : Env) (p : E.Pen) : ColorModel → List Tok
  | .cmyk =>
    [.str "\\definecolor\x7bASYcolor\x7d\x7bcmyk\x7d\x7b",
     .num (E.cyan p), .str ",", .num (E.magenta p), .str ",",
     .num (E.yellow p), .str ",", .num (E.black p),
     .str "\x7d\\color\x7bASYcolor\x7d", .newl]
  | .rgb =>
    [.str "\\definecolor\x7bASYcolor\x7d\x7brgb\x7d\x7b",
     .num (E.red p), .str ",", .num (E.green p), .str ",",
     .num (E.blue p), .str "\x7d\\color\x7bASYcolor\x7d", .newl]
  | .grayscale =>
    [.str "\\definecolor\x7bASYcolor\x7d\x7bgray\x7d\x7b",
     .num (E.gray p), .str "\x7d\\color\x7bASYcolor\x7d", .newl]

/-- Whether an insertion opens a `\definecolor` directive of one of the
three models. -/
def opensDefinecolor (t : Tok) : Bool :=
  decide (t = .str "\\definecolor\x7bASYcolor\x7d\x7bcmyk\x7d\x7b" ∨
    t = .str "\\definecolor\x7bASYcolor\x7d\x7brgb\x7d\x7b" ∨
    t = .str "\\definecolor\x7bASYcolor\x7d\x7bgray\x7d\x7b")

/-! ## Frame lemmas -/

@[simp]
theorem emit_out (s : texfile E) (items : List Tok) :
    (s.emit items).out = s.out ++ items := rfl

@[simp]
theorem emit_lastpen (s : texfile E) (items : List Tok) :
    (s.emit items).lastpen = s.lastpen := rfl

@[simp]
theorem emit_texengine (s : texfile E) (items : List Tok) :
    (s.emit items).texengine = s.texengine := rfl

@[simp]
theorem emit_inlinetex (s : texfile E) (items : List Tok) :
    (s.emit items).inlinetex = s.inlinetex := rfl

@[simp]
theorem emit_box (s : texfile E) (items : List Tok) :
    (s.emit items).box = s.box := rfl

@[simp]
theorem emit_Hoffset (s : texfile E) (items : List Tok) :
    (s.emit items).Hoffset = s.Hoffset := rfl

@[simp]
theorem emit_prefile (s : texfile E) (items : List Tok) :
    (s.emit items).prefile = s.prefile := rfl

theorem emit_emit (s : texfile E) (xs ys : List Tok) :
    (s.emit xs).emit ys = s.emit (xs ++ ys) := by
  simp [texfile.emit, List.append_assoc]

theorem emit_nil (s : texfile E) : s.emit [] = s := by
  simp [texfile.emit]

theorem setfont_lastpen (s : texfile E) (p : E.Pen) :
    (s.setfont p).lastpen = p := by
  simp [texfile.setfont]

/-- The method `prologue` leaves the engine, the inline flag, `Hoffset` and
the box as they are. -/
theorem prologue_config (s : texfile E) :
    s.prologue.texengine = s.texengine ∧ s.prologue.inlinetex = s.inlinetex ∧
    s.prologue.Hoffset = s.Hoffset ∧ s.prologue.box = s.box := by
  cases hi : s.inlinetex <;> cases hp : E.pdf s.texengine <;>
    cases hl : E.latex s.texengine <;>
    simp [texfile.prologue, hi, hp, hl] <;> (repeat' split) <;> simp [hi]

/-- Every method leaves the engine, the inline flag, `Hoffset` and the box
as they are. -/
theorem call_config (s : texfile E) (c : Call E) :
    (s.call c).texengine = s.texengine ∧ (s.call c).inlinetex = s.inlinetex ∧
    (s.call c).Hoffset = s.Hoffset ∧ (s.call c).box = s.box := by
  cases c with
  | prologue => exact prologue_config s
  | _ =>
    simp only [texfile.call, texfile.miniprologue,
      texfile.beginlayer, texfile.endlayer, texfile.writeshifted,
      texfile.setlatexcolor, texfile.setfont, texfile.setpen, texfile.gsave,
      texfile.grestore, texfile.beginspecial, texfile.endspecial,
      texfile.beginraw, texfile.endraw, texfile.put, texfile.epilogue]
    (repeat' split) <;> simp

/-- A sequence of calls leaves the engine, the inline flag, `Hoffset` and
the box as they are. -/
theorem calls_config (cs : List (Call E)) (s : texfile E) :
    (s.calls cs).texengine = s.texengine ∧ (s.calls cs).inlinetex = s.inlinetex ∧
    (s.calls cs).Hoffset = s.Hoffset ∧ (s.calls cs).box = s.box := by
  induction cs generalizing s with
  | nil => simp [texfile.calls]
  | cons c cs ih =>
    have h1 := call_config s c
    have h2 := ih (s.call c)
    simp only [texfile.calls, List.foldl_cons] at h2 ⊢
    refine ⟨h2.1.trans h1.1, h2.2.1.trans h1.2.1, h2.2.2.1.trans h1.2.2.1,
      h2.2.2.2.trans h1.2.2.2⟩

/-! ## Pen diffing -/

/-- C1: if pen equality is reflexive, then after one call `setpen(p)` a
second call `setpen(p)` returns the emitter as it found it: nothing is
inserted into the stream and the cached pen stays as it was. Idempotence of
`convert` is not needed. -/
theorem setpen_twice (E : Env) (s : texfile E) (p : E.Pen)
    (hrefl : ∀ q : E.Pen, E.peneq q q = true) :
    (s.setpen p).setpen p = s.setpen p ∧
    ((s.setpen p).setpen p).out = (s.setpen p).out ∧
    ((s.setpen p).setpen p).lastpen = (s.setpen p).lastpen := by
  have key : (s.setpen p).setpen p = s.setpen p := by
    by_cases h : E.peneq (E.convert p) s.lastpen = true
    · have h1 : s.setpen p = s := by simp [texfile.setpen, h]
      rw [h1, h1]
    · have hl : (s.setpen p).lastpen = E.convert p := by
        simp [texfile.setpen, h, setfont_lastpen]
      have h2 : E.peneq (E.convert p) (s.setpen p).lastpen = true := by
        rw [hl]; exact hrefl _
      generalize s.setpen p = s1 at h2 ⊢
      simp [texfile.setpen, h2]
  exact ⟨key, by rw [key], by rw [key]⟩

/-- Instance of `setpen_twice`: on a fresh LaTeX emitter the first
`setpen(cyanPen)` inserts the colour and font lines, the second nothing. -/
theorem setpen_twice_witness :
    (∀ q : PenData, (stdEnv "latex" false).peneq q q = true) ∧
    ((stdFile "latex" false).setpen cyanPen).out =
      [.str "\\definecolor\x7bASYcolor\x7d\x7bcmyk\x7d\x7b",
       .num 1, .str ",", .num 0, .str ",", .num 0, .str ",", .num 0,
       .str "\x7d\\color\x7bASYcolor\x7d", .newl,
       .str "\\fontsize\x7b", .num 10, .str "\x7d\x7b", .num 12,
       .str "\x7d\\selectfont", .newl,
       .str "\\rmfamily", .str "%", .newl] ∧
    (((stdFile "latex" false).setpen cyanPen).setpen cyanPen).out =
      ((stdFile "latex" false).setpen cyanPen).out :=
  ⟨fun q => by simp [stdEnv],
   by simp [texfile.setpen, texfile.setlatexcolor, texfile.setfont, stdEnv, stdFile,
       cyanPen],
   (setpen_twice (stdEnv "latex" false) (stdFile "latex" false) cyanPen
      (fun q => by simp [stdEnv])).2.1⟩

/-- C2: for a pen `p` with the CMYK and the RGB model both set, and a cached
pen whose CMYK model is unset or differs from `p` in cyan, magenta, yellow or
black, `setlatexcolor(p)` inserts the cmyk `\definecolor` line with the four
components of `p` and nothing else: no rgb and no gray directive, whatever
the RGB components are. -/
theorem setlatexcolor_cmyk_before_rgb (E : Env) (s : texfile E) (p : E.Pen)
    (hc : E.cmyk p = true) (_hr : E.rgb p = true)
    (hd : E.cmyk s.lastpen = false ∨ E.cyan p ≠ E.cyan s.lastpen ∨
          E.magenta p ≠ E.magenta s.lastpen ∨ E.yellow p ≠ E.yellow s.lastpen ∨
          E.black p ≠ E.black s.lastpen) :
    ∃ written : List Tok,
      written =
        [.str "\\definecolor\x7bASYcolor\x7d\x7bcmyk\x7d\x7b",
         .num (E.cyan p), .str ",", .num (E.magenta p), .str ",",
         .num (E.yellow p), .str ",", .num (E.black p),
         .str "\x7d\\color\x7bASYcolor\x7d", .newl] ∧
      s.setlatexcolor p = s.emit written ∧
      (s.setlatexcolor p).out = s.out ++ written ∧
      Tok.str "\\definecolor\x7bASYcolor\x7d\x7brgb\x7d\x7b" ∉ written ∧
      Tok.str "\\definecolor\x7bASYcolor\x7d\x7bgray\x7d\x7b" ∉ written := by
  have hcond : (E.cmyk p && (!E.cmyk s.lastpen ||
      (E.cyan p != E.cyan s.lastpen ||
       E.magenta p != E.magenta s.lastpen ||
       E.yellow p != E.yellow s.lastpen ||
       E.black p != E.black s.lastpen))) = true := by
    rcases hd with h | h | h | h | h <;> simp [hc, h]
  have hset : s.setlatexcolor p = s.emit
      [.str "\\definecolor\x7bASYcolor\x7d\x7bcmyk\x7d\x7b",
       .num (E.cyan p), .str ",", .num (E.magenta p), .str ",",
       .num (E.yellow p), .str ",", .num (E.black p),
       .str "\x7d\\color\x7bASYcolor\x7d", .newl] := by
    unfold texfile.setlatexcolor
    rw [if_pos hcond]
  refine ⟨_, rfl, hset, ?_, ?_, ?_⟩
  · rw [hset]; rfl
  · simp
  · simp

/-- Instance of `setlatexcolor_cmyk_before_rgb`: `cyanPen` after the reset
pen, whose CMYK model is unset. -/
theorem setlatexcolor_cmyk_before_rgb_witness :
    (stdEnv "latex" false).cmyk cyanPen = true ∧
    (stdEnv "latex" false).rgb cyanPen = true ∧
    (stdEnv "latex" false).cmyk (stdFile "latex" false).lastpen = false ∧
    ∃ written : List Tok,
      written =
        [.str "\\definecolor\x7bASYcolor\x7d\x7bcmyk\x7d\x7b",
         .num ((stdEnv "latex" false).cyan cyanPen), .str ",",
         .num ((stdEnv "latex" false).magenta cyanPen), .str ",",
         .num ((stdEnv "latex" false).yellow cyanPen), .str ",",
         .num ((stdEnv "latex" false).black cyanPen),
         .str "\x7d\\color\x7bASYcolor\x7d", .newl] ∧
      (stdFile "latex" false).setlatexcolor cyanPen =
        (stdFile "latex" false).emit written ∧
      ((stdFile "latex" false).setlatexcolor cyanPen).out =
        (stdFile "latex" false).out ++ written ∧
      Tok.str "\\definecolor\x7bASYcolor\x7d\x7brgb\x7d\x7b" ∉ written ∧
      Tok.str "\\definecolor\x7bASYcolor\x7d\x7bgray\x7d\x7b" ∉ written :=
  ⟨rfl, rfl, rfl,
   setlatexcolor_cmyk_before_rgb (stdEnv "latex" false) (stdFile "latex" false)
     cyanPen rfl rfl (Or.inl rfl)⟩

/-! ## Labels -/

/-- C3: for a non-empty label and two emitters that agree on box, inline
flag and `Hoffset`, the first on a PDF engine and the second on an engine
that is not: both calls of `put` insert one label line with the same anchor,
the same alignment pair, the same `T.xx` and `T.yy` and the same label; the
second and third matrix entries are `T.yx`, `T.xy` for the PDF engine and
`-T.yx`, `-T.xy` for the other. -/
theorem put_cross_terms_flip (E : Env) (s1 s2 : texfile E) (label : String)
    (T : transform) (z align : pair)
    (hlabel : label ≠ "")
    (hbox : s1.box = s2.box) (_hinline : s1.inlinetex = s2.inlinetex)
    (hoff : s1.Hoffset = s2.Hoffset)
    (hpdf1 : E.pdf s1.texengine = true) (hpdf2 : E.pdf s2.texengine = false) :
    ∃ anchor : pair,
      anchor = ⟨(z.x - s1.Hoffset) * E.ps2tex, (z.y - s1.box.bottom) * E.ps2tex⟩ ∧
      (s1.put label T z align).out =
        s1.out ++ labelMacro anchor align T.xx T.yx T.xy T.yy label ∧
      (s2.put label T z align).out =
        s2.out ++ labelMacro anchor align T.xx (-T.yx) (-T.xy) T.yy label := by
  refine ⟨_, rfl, ?_, ?_⟩
  · simp [texfile.put, hlabel, hpdf1, labelMacro]
  · simp [texfile.put, hlabel, hpdf2, labelMacro, ← hbox, ← hoff]

/-- Instance of `put_cross_terms_flip`: `pdflatex` against `latex`, both on
the box (0,0,100,50) and not inline. -/
theorem put_cross_terms_flip_witness :
    ("A" : String) ≠ "" ∧
    (stdEnv "latex" false).pdf "pdflatex" = true ∧
    (stdEnv "latex" false).pdf "latex" = false ∧
    ∃ anchor : pair,
      anchor =
        ⟨(3 - (0 : ℚ)) * (stdEnv "latex" false).ps2tex,
         (4 - (0 : ℚ)) * (stdEnv "latex" false).ps2tex⟩ ∧
      (texfile.put
          ({ stdFile "latex" false with texengine := "pdflatex" } :
            texfile (stdEnv "latex" false))
          "A" ⟨0, 0, 1, 2, 3, 4⟩ ⟨3, 4⟩ ⟨0, 0⟩).out =
        [] ++ labelMacro anchor ⟨0, 0⟩ 1 3 2 4 "A" ∧
      (texfile.put (stdFile "latex" false) "A" ⟨0, 0, 1, 2, 3, 4⟩ ⟨3, 4⟩
          ⟨0, 0⟩).out =
        [] ++ labelMacro anchor ⟨0, 0⟩ 1 (-3) (-2) 4 "A" :=
  ⟨by decide, by decide, by decide,
   put_cross_terms_flip (stdEnv "latex" false)
     { stdFile "latex" false with texengine := "pdflatex" }
     (stdFile "latex" false) "A" ⟨0, 0, 1, 2, 3, 4⟩ ⟨3, 4⟩ ⟨0, 0⟩
     (by decide) rfl rfl rfl (by decide) (by decide)⟩

/-- C6: `put` with the empty label returns the emitter as it found it: the
stream, the cached pen, the box, `Hoffset` and the engine configuration are
all unchanged. -/
theorem put_empty_label (E : Env) (s : texfile E) (T : transform)
    (z align : pair) :
    s.put "" T z align = s ∧ (s.put "" T z align).out = s.out ∧
    render ((s.put "" T z align).out.drop s.out.length) = "" := by
  have h : s.put "" T z align = s := by simp [texfile.put]
  rw [h]
  simp [render]

/-! ## Layers -/

/-- C4: on a degenerate box (`right <= left` or `top <= bottom`)
`beginlayer` and `endlayer` return the emitter as they found it: nothing is
inserted into the stream, so neither an `\includegraphics` directive nor a
kern, for every engine, inline flag, cached pen and layer name. -/
theorem layer_degenerate_box (E : Env) (s : texfile E) (psname : String)
    (hdeg : s.box.right ≤ s.box.left ∨ s.box.top ≤ s.box.bottom) :
    s.beginlayer psname = s ∧ (s.beginlayer psname).out = s.out ∧
    s.endlayer = s ∧ s.endlayer.out = s.out := by
  have hcond : ¬ (s.box.left < s.box.right ∧ s.box.bottom < s.box.top) := by
    rintro ⟨h1, h2⟩
    rcases hdeg with h | h
    · exact absurd h1 (not_lt.mpr h)
    · exact absurd h2 (not_lt.mpr h)
  have hb : s.beginlayer psname = s := by
    simp only [texfile.beginlayer, gt_iff_lt, Bool.and_eq_true, decide_eq_true_eq]
    rw [if_neg hcond]
  have he : s.endlayer = s := by
    simp only [texfile.endlayer, gt_iff_lt, Bool.and_eq_true, decide_eq_true_eq]
    rw [if_neg (fun h => hcond h.2)]
  exact ⟨hb, by rw [hb], he, by rw [he]⟩

/-- Instance of `layer_degenerate_box`: a box of zero width
(`right == left`), on a `latex` emitter that is not inline. -/
theorem layer_degenerate_box_witness :
    ((7 : ℚ) ≤ 7 ∨ (50 : ℚ) ≤ 0) ∧
    texfile.beginlayer
        ({ stdFile "latex" false with box := ⟨7, 0, 7, 50⟩ } :
          texfile (stdEnv "latex" false)) "fig.eps" =
      { stdFile "latex" false with box := ⟨7, 0, 7, 50⟩ } ∧
    texfile.endlayer
        ({ stdFile "latex" false with box := ⟨7, 0, 7, 50⟩ } :
          texfile (stdEnv "latex" false)) =
      { stdFile "latex" false with box := ⟨7, 0, 7, 50⟩ } :=
  ⟨Or.inl le_rfl,
   (layer_degenerate_box (stdEnv "latex" false)
      { stdFile "latex" false with box := ⟨7, 0, 7, 50⟩ } "fig.eps"
      (Or.inl le_rfl)).1,
   (layer_degenerate_box (stdEnv "latex" false)
      { stdFile "latex" false with box := ⟨7, 0, 7, 50⟩ } "fig.eps"
      (Or.inl le_rfl)).2.2.1⟩

/-- C8: on a non-degenerate box (`right > left` and `top > bottom`), for
every engine and layer name: `beginlayer` inserts the `\includegraphics`
directive followed by the kern line if and only if the emitter is not
inline, and the directive alone if and only if it is inline; `endlayer`
inserts the kern line if and only if the emitter is inline, and nothing if
and only if it is not; so `beginlayer(name); endlayer()` inserts the
directive followed by one kern line of the same value in both modes. -/
theorem layer_kern_once (E : Env) (s : texfile E) (psname : String)
    (hw : s.box.right > s.box.left) (hh : s.box.top > s.box.bottom) :
    ((s.beginlayer psname).out =
        s.out ++ (includeLine (E.pdf s.texengine) s.box psname ++ kernLine E s.box) ↔
      s.inlinetex = false) ∧
    ((s.beginlayer psname).out =
        s.out ++ includeLine (E.pdf s.texengine) s.box psname ↔
      s.inlinetex = true) ∧
    (s.endlayer.out = s.out ++ kernLine E s.box ↔ s.inlinetex = true) ∧
    (s.endlayer.out = s.out ↔ s.inlinetex = false) ∧
    ((s.beginlayer psname).endlayer).out =
      s.out ++ (includeLine (E.pdf s.texengine) s.box psname ++ kernLine E s.box) := by
  have hw1 : s.box.left < s.box.right := hw
  have hh1 : s.box.bottom < s.box.top := hh
  cases hi : s.inlinetex <;> cases hp : E.pdf s.texengine <;>
    simp [texfile.beginlayer, texfile.endlayer, includeLine, kernLine, hw1, hh1, hi, hp]

/-- Instance of `layer_kern_once`: the box (0,0,100,50) on an inline
`pdflatex` emitter; the kern comes from `endlayer`. -/
theorem layer_kern_once_witness :
    ((100 : ℚ) > 0 ∧ (50 : ℚ) > 0) ∧
    (((stdFile "pdflatex" true).beginlayer "fig.pdf").endlayer).out =
      [] ++ (includeLine ((stdEnv "pdflatex" true).pdf "pdflatex") ⟨0, 0, 100, 50⟩
          "fig.pdf" ++ kernLine (stdEnv "pdflatex" true) ⟨0, 0, 100, 50⟩) ∧
    ((stdFile "pdflatex" true).endlayer.out =
        [] ++ kernLine (stdEnv "pdflatex" true) ⟨0, 0, 100, 50⟩ ↔ true = true) :=
  ⟨⟨by norm_num, by norm_num⟩,
   (layer_kern_once (stdEnv "pdflatex" true) (stdFile "pdflatex" true) "fig.pdf"
      (by norm_num [stdFile]) (by norm_num [stdFile])).2.2.2.2,
   (layer_kern_once (stdEnv "pdflatex" true) (stdFile "pdflatex" true) "fig.pdf"
      (by norm_num [stdFile]) (by norm_num [stdFile])).2.2.1⟩

/-! ## Epilogue -/

/-- C5: `epilogue` on a LaTeX engine inserts exactly the line
`\end{document}` when the emitter is not inline and nothing when it is
inline; on an engine that is not LaTeX and an emitter that is not inline it
inserts exactly the line `\bye`. Nothing but the stream changes. -/
theorem epilogue_three_cases (E : Env) (s : texfile E) :
    (E.latex s.texengine = true → s.inlinetex = false →
      s.epilogue = s.emit [.str "\\end\x7bdocument\x7d", .newl] ∧
      s.epilogue.out = s.out ++ [.str "\\end\x7bdocument\x7d", .newl]) ∧
    (E.latex s.texengine = true → s.inlinetex = true →
      s.epilogue = s ∧ s.epilogue.out = s.out) ∧
    (E.latex s.texengine = false → s.inlinetex = false →
      s.epilogue = s.emit [.str "\\bye", .newl] ∧
      s.epilogue.out = s.out ++ [.str "\\bye", .newl]) := by
  refine ⟨fun hl hi => ?_, fun hl hi => ?_, fun hl hi => ?_⟩ <;>
    simp [texfile.epilogue, hl, hi]

/-- Instance of `epilogue_three_cases`: `latex` not inline, `latex` inline
and `tex` not inline, with the characters left in the file. -/
theorem epilogue_three_cases_witness :
    render (stdFile "latex" false).epilogue.out = "\\end\x7bdocument\x7d\n" ∧
    render (stdFile "latex" true).epilogue.out = "" ∧
    render (stdFile "tex" false).epilogue.out = "\\bye\n" :=
  ⟨by rw [((epilogue_three_cases (stdEnv "latex" false) (stdFile "latex" false)).1
        (by decide) rfl).2]; decide,
   by rw [((epilogue_three_cases (stdEnv "latex" true) (stdFile "latex" true)).2.1
        (by decide) rfl).2]; decide,
   by rw [((epilogue_three_cases (stdEnv "tex" false) (stdFile "tex" false)).2.2
        (by decide) rfl).2]; decide⟩

/-- Counterexample to C10 as stated: on the engine `tex`, which is not
LaTeX, an inline emitter does get the terminator `\bye` from `epilogue`; so
`\bye` is not written exactly when the engine is not LaTeX and the emitter is
not inline. -/
theorem epilogue_bye_inline_counterexample :
    (stdEnv "tex" true).latex (stdFile "tex" true).texengine = false ∧
    (stdFile "tex" true).inlinetex = true ∧
    (stdFile "tex" true).epilogue.out =
      (stdFile "tex" true).out ++ [.str "\\bye", .newl] ∧
    ¬ ((stdFile "tex" true).epilogue.out =
          (stdFile "tex" true).out ++ [.str "\\bye", .newl] ↔
        ((stdEnv "tex" true).latex (stdFile "tex" true).texengine = false ∧
          (stdFile "tex" true).inlinetex = false)) := by
  have hl : (stdEnv "tex" true).latex (stdFile "tex" true).texengine = false := by
    decide
  have ho : (stdFile "tex" true).epilogue.out =
      (stdFile "tex" true).out ++ [.str "\\bye", .newl] := by
    simp [texfile.epilogue, hl]
  refine ⟨hl, rfl, ho, ?_⟩
  intro h
  have h2 := (h.mp ho).2
  exact absurd h2 (by decide)

/-- C10, amended: the terminator `epilogue` inserts is decided as follows:
`\end{document}` exactly when the engine is LaTeX and the emitter is not
inline; `\bye` exactly when the engine is not LaTeX, inline or not; and
nothing exactly when the engine is LaTeX and the emitter is inline. -/
theorem epilogue_terminator_iff (E : Env) (s : texfile E) :
    (s.epilogue.out = s.out ++ [.str "\\end\x7bdocument\x7d", .newl] ↔
      (E.latex s.texengine = true ∧ s.inlinetex = false)) ∧
    (s.epilogue.out = s.out ++ [.str "\\bye", .newl] ↔
      E.latex s.texengine = false) ∧
    (s.epilogue.out = s.out ↔
      (E.latex s.texengine = true ∧ s.inlinetex = true)) := by
  cases hl : E.latex s.texengine <;> cases hi : s.inlinetex <;>
    simp [texfile.epilogue, hl, hi]

/-! ## Prologue -/

/-- C7: on a PDF LaTeX engine and an emitter that is not inline, for a box
of positive width `w` and positive height `h`, `prologue` inserts after the
collaborator's definitions exactly the ten lines `\pdfpagewidth=` w `bp`,
`\pdfpageheight=` h `bp`, the unit length, the page style, `\textheight=`
(h+18) `bp`, `\textwidth=` (w+18) `bp`, the three margin lines and
`\begin{document}`, in this order. For the box (0,0,100,50) the characters
are those of the values 100, 50, 68 and 118 with six decimals. -/
theorem prologue_pdflatex (E : Env) (s : texfile E)
    (hpdf : E.pdf s.texengine = true) (hlatex : E.latex s.texengine = true)
    (hinline : s.inlinetex = false)
    (hw : 0 < s.box.right - s.box.left) (hh : 0 < s.box.top - s.box.bottom) :
    s.prologue.out = s.out ++ E.texdefines ++
      [.str "\\pdfpagewidth=", .num (s.box.right - s.box.left), .str "bp", .newl,
       .str "\\pdfpageheight=", .num (s.box.top - s.box.bottom), .str "bp", .newl,
       .str "\\setlength\x7b\\unitlength\x7d\x7b1pt\x7d", .newl,
       .str "\\pagestyle\x7bempty\x7d", .newl,
       .str "\\textheight=", .num (s.box.top - s.box.bottom + 18), .str "bp", .newl,
       .str "\\textwidth=", .num (s.box.right - s.box.left + 18), .str "bp", .newl,
       .str "\\oddsidemargin=-89.9pt", .newl,
       .str "\\evensidemargin=\\oddsidemargin", .newl,
       .str "\\topmargin=-109.27pt", .newl,
       .str "\\begin\x7bdocument\x7d", .newl] ∧
    (s.box = ⟨0, 0, 100, 50⟩ →
      render (s.prologue.out.drop (s.out ++ E.texdefines).length) =
        "\\pdfpagewidth=100.000000bp\n\\pdfpageheight=50.000000bp\n" ++
        "\\setlength\x7b\\unitlength\x7d\x7b1pt\x7d\n\\pagestyle\x7bempty\x7d\n" ++
        "\\textheight=68.000000bp\n\\textwidth=118.000000bp\n" ++
        "\\oddsidemargin=-89.9pt\n\\evensidemargin=\\oddsidemargin\n" ++
        "\\topmargin=-109.27pt\n\\begin\x7bdocument\x7d\n") := by
  have hout : s.prologue.out = s.out ++ E.texdefines ++
      [.str "\\pdfpagewidth=", .num (s.box.right - s.box.left), .str "bp", .newl,
       .str "\\pdfpageheight=", .num (s.box.top - s.box.bottom), .str "bp", .newl,
       .str "\\setlength\x7b\\unitlength\x7d\x7b1pt\x7d", .newl,
       .str "\\pagestyle\x7bempty\x7d", .newl,
       .str "\\textheight=", .num (s.box.top - s.box.bottom + 18), .str "bp", .newl,
       .str "\\textwidth=", .num (s.box.right - s.box.left + 18), .str "bp", .newl,
       .str "\\oddsidemargin=-89.9pt", .newl,
       .str "\\evensidemargin=\\oddsidemargin", .newl,
       .str "\\topmargin=-109.27pt", .newl,
       .str "\\begin\x7bdocument\x7d", .newl] := by
    simp [texfile.prologue, hpdf, hlatex, hinline, hw, hh]
  refine ⟨hout, fun hbox => ?_⟩
  rw [hout, List.drop_left, hbox]
  have h1 : ((100 : ℚ) - 0) = 100 := by norm_num
  have h2 : ((50 : ℚ) - 0) = 50 := by norm_num
  have h3 : ((50 : ℚ) + 18) = 68 := by norm_num
  have h4 : ((100 : ℚ) + 18) = 118 := by norm_num
  simp only [h1, h2, h3, h4]
  set_option maxRecDepth 8000 in decide

/-- Instance of `prologue_pdflatex`: the box (0,0,100,50) on a `pdflatex`
emitter that is not inline. -/
theorem prologue_pdflatex_witness :
    ((0 : ℚ) < 100 - 0 ∧ (0 : ℚ) < 50 - 0) ∧
    render ((stdFile "pdflatex" false).prologue.out.drop
        ((stdFile "pdflatex" false).out ++
          (stdEnv "pdflatex" false).texdefines).length) =
      "\\pdfpagewidth=100.000000bp\n\\pdfpageheight=50.000000bp\n" ++
      "\\setlength\x7b\\unitlength\x7d\x7b1pt\x7d\n\\pagestyle\x7bempty\x7d\n" ++
      "\\textheight=68.000000bp\n\\textwidth=118.000000bp\n" ++
      "\\oddsidemargin=-89.9pt\n\\evensidemargin=\\oddsidemargin\n" ++
      "\\topmargin=-109.27pt\n\\begin\x7bdocument\x7d\n" :=
  ⟨⟨by norm_num, by norm_num⟩,
   (prologue_pdflatex (stdEnv "pdflatex" false) (stdFile "pdflatex" false)
      (by decide) (by decide) rfl (by norm_num [stdFile]) (by norm_num [stdFile])).2
      rfl⟩

/-! ## Label anchors -/

/-- C9: for an emitter constructed on a box and then taken through any
sequence of calls, `Hoffset` is `box.right` when the setting `inlinetex` is
on and `box.left` otherwise, and `put` with a non-empty label inserts one
label line whose anchor is `((z.x - Hoffset)*ps2tex, (z.y - bottom)*ps2tex)`
and whose alignment pair is `align` as given. When not inline a label at the
bottom-left corner of the box has anchor (0,0); when inline a label at the
bottom-right corner has anchor (0,0). -/
theorem put_anchor (E : Env) (opened : Bool) (prefile : Option (List Tok))
    (box : bbox) (s0 : texfile E)
    (hctor : texfile.ctor E opened prefile box = some s0)
    (cs : List (Call E)) (label : String) (hlabel : label ≠ "")
    (T : transform) (z align : pair) :
    (s0.calls cs).Hoffset = (if E.inlinetex then box.right else box.left) ∧
    (s0.calls cs).inlinetex = E.inlinetex ∧
    ((s0.calls cs).put label T z align).out =
      (s0.calls cs).out ++
        labelMacro
          ⟨(z.x - (if E.inlinetex then box.right else box.left)) * E.ps2tex,
           (z.y - box.bottom) * E.ps2tex⟩
          align T.xx ((if E.pdf E.tex then 1 else -1) * T.yx)
          ((if E.pdf E.tex then 1 else -1) * T.xy) T.yy label ∧
    (E.inlinetex = false → z = ⟨box.left, box.bottom⟩ →
      ((s0.calls cs).put label T z align).out =
        (s0.calls cs).out ++
          labelMacro ⟨0, 0⟩ align T.xx ((if E.pdf E.tex then 1 else -1) * T.yx)
            ((if E.pdf E.tex then 1 else -1) * T.xy) T.yy label) ∧
    (E.inlinetex = true → z = ⟨box.right, box.bottom⟩ →
      ((s0.calls cs).put label T z align).out =
        (s0.calls cs).out ++
          labelMacro ⟨0, 0⟩ align T.xx ((if E.pdf E.tex then 1 else -1) * T.yx)
            ((if E.pdf E.tex then 1 else -1) * T.xy) T.yy label) := by
  have hs0 : s0 = { texengine := E.tex, inlinetex := E.inlinetex,
                    Hoffset := if E.inlinetex then box.right else box.left,
                    box := box, lastpen := E.resetpen, out := E.texdocumentclass,
                    prefile := prefile } := by
    cases opened
    · simp [texfile.ctor] at hctor
    · simp [texfile.ctor] at hctor
      exact hctor.symm
  obtain ⟨he, hi, ho, hb⟩ := calls_config cs s0
  have he0 : s0.texengine = E.tex := by rw [hs0]
  have hi0 : s0.inlinetex = E.inlinetex := by rw [hs0]
  have ho0 : s0.Hoffset = (if E.inlinetex then box.right else box.left) := by
    rw [hs0]
  have hb0 : s0.box = box := by rw [hs0]
  have hput : ((s0.calls cs).put label T z align).out =
      (s0.calls cs).out ++
        labelMacro
          ⟨(z.x - (if E.inlinetex then box.right else box.left)) * E.ps2tex,
           (z.y - box.bottom) * E.ps2tex⟩
          align T.xx ((if E.pdf E.tex then 1 else -1) * T.yx)
          ((if E.pdf E.tex then 1 else -1) * T.xy) T.yy label := by
    simp only [texfile.put, if_neg hlabel, emit_out, emit_Hoffset, emit_box,
      emit_texengine, he, ho, hb, he0, ho0, hb0, labelMacro, List.append_assoc,
      List.cons_append, List.nil_append]
  refine ⟨ho.trans ho0, hi.trans hi0, hput, ?_, ?_⟩
  · intro hinl hz
    rw [hput, hz, hinl]
    simp
  · intro hinl hz
    rw [hput, hz, hinl]
    simp

/-- Instance of `put_anchor`: a `latex` emitter that is not inline, on the
box (10,20,110,70), after `prologue` and one layer; a label at the
bottom-left corner (10,20) has anchor (0,0). -/
theorem put_anchor_witness :
    texfile.ctor (stdEnv "latex" false) true none ⟨10, 20, 110, 70⟩ =
      some { stdFile "latex" false with box := ⟨10, 20, 110, 70⟩, Hoffset := 10 } ∧
    ("A" : String) ≠ "" ∧
    (texfile.put
        (texfile.calls
          ({ stdFile "latex" false with box := ⟨10, 20, 110, 70⟩, Hoffset := 10 } :
            texfile (stdEnv "latex" false))
          [.prologue, .beginlayer "fig.eps", .endlayer])
        "A" ⟨0, 0, 1, 0, 0, 1⟩ ⟨10, 20⟩ ⟨-1, 1⟩).out =
      (texfile.calls
          ({ stdFile "latex" false with box := ⟨10, 20, 110, 70⟩, Hoffset := 10 } :
            texfile (stdEnv "latex" false))
          [.prologue, .beginlayer "fig.eps", .endlayer]).out ++
        labelMacro ⟨0, 0⟩ ⟨-1, 1⟩ 1
          ((if (stdEnv "latex" false).pdf (stdEnv "latex" false).tex then 1 else -1) * 0)
          ((if (stdEnv "latex" false).pdf (stdEnv "latex" false).tex then 1 else -1) * 0)
          1 "A" :=
  ⟨by simp [texfile.ctor, stdFile, stdEnv], by decide,
   (put_anchor (stdEnv "latex" false) true none ⟨10, 20, 110, 70⟩
      { stdFile "latex" false with box := ⟨10, 20, 110, 70⟩, Hoffset := 10 }
      (by simp [texfile.ctor, stdFile, stdEnv])
      [.prologue, .beginlayer "fig.eps", .endlayer] "A" (by decide)
      ⟨0, 0, 1, 0, 0, 1⟩ ⟨10, 20⟩ ⟨-1, 1⟩).2.2.2.1 rfl rfl⟩

/-! ## Prologue: page geometry -/

theorem written_of_out (s t : texfile E) (items : List Tok)
    (h : t.out = s.out ++ items) : s.written t = items := by
  simp [texfile.written, h]

/-- The content of the stream after `prologue`: the content before, the
collaborator's definitions, the page-size lines and the lines of the engine
branch. -/
theorem prologue_out (s : texfile E) :
    s.prologue.out = (s.emit E.texdefines).out ++
      ((if E.pdf s.texengine = true ∧ s.inlinetex = false then
          (if 0 < s.box.right - s.box.left then
            [Tok.str "\\pdfpagewidth=", .num (s.box.right - s.box.left),
             .str "bp", .newl] else []) ++
          (if 0 < s.box.top - s.box.bottom then
            [Tok.str "\\pdfpageheight=", .num (s.box.top - s.box.bottom),
             .str "bp", .newl] else [])
        else []) ++
       (if E.latex s.texengine = true then
          [Tok.str "\\setlength\x7b\\unitlength\x7d\x7b1pt\x7d", .newl] ++
          (if s.inlinetex = false then
            [Tok.str "\\pagestyle\x7bempty\x7d", .newl,
             .str "\\textheight=", .num (s.box.top - s.box.bottom + 18),
             .str "bp", .newl,
             .str "\\textwidth=", .num (s.box.right - s.box.left + 18),
             .str "bp", .newl] ++
            (if E.pdf s.texengine = true then
              [Tok.str "\\oddsidemargin=-89.9pt", .newl,
               .str "\\evensidemargin=\\oddsidemargin", .newl,
               .str "\\topmargin=-109.27pt", .newl] else []) ++
            [Tok.str "\\begin\x7bdocument\x7d", .newl]
          else [])
        else if E.pdf s.texengine = true then
          [Tok.str "\\hoffset=-92.27pt", .newl, .str "\\voffset=-72.27pt", .newl]
        else
          [Tok.str "\\hoffset=36.6pt", .newl, .str "\\voffset=54.0pt", .newl])) := by
  cases hi : s.inlinetex <;> cases hp : E.pdf s.texengine <;>
    cases hl : E.latex s.texengine <;>
    by_cases hw : 0 < s.box.right - s.box.left <;>
    by_cases hh : 0 < s.box.top - s.box.bottom <;>
    simp [texfile.prologue, hi, hp, hl, hw, hh]

/-- C11: in what `prologue` inserts after the collaborator's definitions,
the directive `\pdfpagewidth=` occurs if and only if the engine is
PDF-producing, the emitter is not inline and `right - left > 0`; it then
occurs once, at the very start, with the value `right - left` followed by
`bp`. Independently `\pdfpageheight=` occurs if and only if the engine is
PDF-producing, the emitter is not inline and `top - bottom > 0`; it then
occurs once, right after the width line if there is one, with the value
`top - bottom` followed by `bp`. -/
theorem prologue_pdfpage_iff (E : Env) (s : texfile E) :
    (Tok.str "\\pdfpagewidth=" ∈ (s.emit E.texdefines).written s.prologue ↔
      (E.pdf s.texengine = true ∧ s.inlinetex = false ∧
        s.box.right - s.box.left > 0)) ∧
    (E.pdf s.texengine = true → s.inlinetex = false →
      s.box.right - s.box.left > 0 →
      ((s.emit E.texdefines).written s.prologue).count (.str "\\pdfpagewidth=") = 1 ∧
      [Tok.str "\\pdfpagewidth=", .num (s.box.right - s.box.left), .str "bp",
        .newl] <+: (s.emit E.texdefines).written s.prologue) ∧
    (Tok.str "\\pdfpageheight=" ∈ (s.emit E.texdefines).written s.prologue ↔
      (E.pdf s.texengine = true ∧ s.inlinetex = false ∧
        s.box.top - s.box.bottom > 0)) ∧
    (E.pdf s.texengine = true → s.inlinetex = false →
      s.box.top - s.box.bottom > 0 →
      ((s.emit E.texdefines).written s.prologue).count (.str "\\pdfpageheight=") = 1 ∧
      ((if s.box.right - s.box.left > 0 then
          [Tok.str "\\pdfpagewidth=", .num (s.box.right - s.box.left), .str "bp",
            .newl] else []) ++
        [Tok.str "\\pdfpageheight=", .num (s.box.top - s.box.bottom), .str "bp",
          .newl]) <+: (s.emit E.texdefines).written s.prologue) := by
  rw [written_of_out _ _ _ (prologue_out s)]
  refine ⟨?_, ?_, ?_, ?_⟩
  · cases hi : s.inlinetex <;> cases hp : E.pdf s.texengine <;>
      cases hl : E.latex s.texengine <;>
      by_cases hw : 0 < s.box.right - s.box.left <;>
      by_cases hh : 0 < s.box.top - s.box.bottom <;>
      simp [hw, hh]
  · intro hp hi hw
    have hw1 : 0 < s.box.right - s.box.left := hw
    constructor
    · cases hl : E.latex s.texengine <;>
        by_cases hh : 0 < s.box.top - s.box.bottom <;>
        simp [hp, hi, hw1, hh, List.count_cons]
    · simp only [hp, hi, hw1, and_self, if_true, List.append_assoc]
      exact ⟨_, rfl⟩
  · cases hi : s.inlinetex <;> cases hp : E.pdf s.texengine <;>
      cases hl : E.latex s.texengine <;>
      by_cases hw : 0 < s.box.right - s.box.left <;>
      by_cases hh : 0 < s.box.top - s.box.bottom <;>
      simp [hw, hh]
  · intro hp hi hh
    have hh1 : 0 < s.box.top - s.box.bottom := hh
    constructor
    · cases hl : E.latex s.texengine <;>
        by_cases hw : 0 < s.box.right - s.box.left <;>
        simp [hp, hi, hh1, hw, List.count_cons]
    · simp only [hp, hi, hh1, and_self, if_true, gt_iff_lt, List.append_assoc]
      exact ⟨_, List.append_assoc _ _ _⟩

/-- Instance of `prologue_pdfpage_iff`: the box (0,0,100,50) on a `pdflatex`
emitter that is not inline; the width line opens what `prologue` inserts. -/
theorem prologue_pdfpage_iff_witness :
    ((stdEnv "pdflatex" false).pdf "pdflatex" = true ∧ (100 : ℚ) - 0 > 0) ∧
    ([Tok.str "\\pdfpagewidth=", .num (100 - 0), .str "bp", .newl] <+:
      ((stdFile "pdflatex" false).emit (stdEnv "pdflatex" false).texdefines).written
        (stdFile "pdflatex" false).prologue) ∧
    (Tok.str "\\pdfpageheight=" ∈
      ((stdFile "pdflatex" false).emit (stdEnv "pdflatex" false).texdefines).written
        (stdFile "pdflatex" false).prologue) :=
  ⟨⟨by decide, by norm_num⟩,
   ((prologue_pdfpage_iff (stdEnv "pdflatex" false) (stdFile "pdflatex" false)).2.1
      (by decide) rfl (by norm_num [stdFile])).2,
   (prologue_pdfpage_iff (stdEnv "pdflatex" false) (stdFile "pdflatex" false)).2.2.1.mpr
      ⟨by decide, rfl, by norm_num [stdFile]⟩⟩

/-- Counterexample to C12 as stated: on the empty box (0,0,0,0), whose width
and height are zero, a `latex` emitter that is not inline gets the lines
`\textheight=` and `\textwidth=` from `prologue`, both with the value 18. -/
theorem prologue_textwidth_counterexample :
    ((0 : ℚ) - 0 ≤ 0) ∧
    (texfile.emit
        ({ stdFile "latex" false with box := ⟨0, 0, 0, 0⟩ } :
          texfile (stdEnv "latex" false))
        (stdEnv "latex" false).texdefines).written
      (texfile.prologue
        ({ stdFile "latex" false with box := ⟨0, 0, 0, 0⟩ } :
          texfile (stdEnv "latex" false))) =
      [.str "\\setlength\x7b\\unitlength\x7d\x7b1pt\x7d", .newl,
       .str "\\pagestyle\x7bempty\x7d", .newl,
       .str "\\textheight=", .num 18, .str "bp", .newl,
       .str "\\textwidth=", .num 18, .str "bp", .newl,
       .str "\\begin\x7bdocument\x7d", .newl] ∧
    Tok.str "\\textwidth=" ∈
      (texfile.emit
          ({ stdFile "latex" false with box := ⟨0, 0, 0, 0⟩ } :
            texfile (stdEnv "latex" false))
          (stdEnv "latex" false).texdefines).written
        (texfile.prologue
          ({ stdFile "latex" false with box := ⟨0, 0, 0, 0⟩ } :
            texfile (stdEnv "latex" false))) ∧
    Tok.str "\\textheight=" ∈
      (texfile.emit
          ({ stdFile "latex" false with box := ⟨0, 0, 0, 0⟩ } :
            texfile (stdEnv "latex" false))
          (stdEnv "latex" false).texdefines).written
        (texfile.prologue
          ({ stdFile "latex" false with box := ⟨0, 0, 0, 0⟩ } :
            texfile (stdEnv "latex" false))) := by
  have hw : texfile.written
      (texfile.emit
        ({ stdFile "latex" false with box := ⟨0, 0, 0, 0⟩ } :
          texfile (stdEnv "latex" false))
        (stdEnv "latex" false).texdefines)
      (texfile.prologue
        ({ stdFile "latex" false with box := ⟨0, 0, 0, 0⟩ } :
          texfile (stdEnv "latex" false))) =
      [.str "\\setlength\x7b\\unitlength\x7d\x7b1pt\x7d", .newl,
       .str "\\pagestyle\x7bempty\x7d", .newl,
       .str "\\textheight=", .num 18, .str "bp", .newl,
       .str "\\textwidth=", .num 18, .str "bp", .newl,
       .str "\\begin\x7bdocument\x7d", .newl] := by
    rw [written_of_out _ _ _ (prologue_out _)]
    simp [stdEnv, stdFile]
  refine ⟨by norm_num, hw, ?_, ?_⟩
  · rw [hw]; simp
  · rw [hw]; simp

/-- C12, amended: for a box of width `right - left <= 0` `prologue` inserts
no `\pdfpagewidth=` directive, and for a box of height `top - bottom <= 0` no
`\pdfpageheight=` directive, for every engine and inline flag. The lines
`\textheight=` and `\textwidth=` do not depend on the sign of the dimension:
they are inserted exactly when the engine is LaTeX and the emitter is not
inline, with the values `height + 18` and `width + 18`. -/
theorem prologue_nonpositive_dimension (E : Env) (s : texfile E) :
    (s.box.right - s.box.left ≤ 0 →
      Tok.str "\\pdfpagewidth=" ∉ (s.emit E.texdefines).written s.prologue) ∧
    (s.box.top - s.box.bottom ≤ 0 →
      Tok.str "\\pdfpageheight=" ∉ (s.emit E.texdefines).written s.prologue) ∧
    (Tok.str "\\textwidth=" ∈ (s.emit E.texdefines).written s.prologue ↔
      (E.latex s.texengine = true ∧ s.inlinetex = false)) ∧
    (Tok.str "\\textheight=" ∈ (s.emit E.texdefines).written s.prologue ↔
      (E.latex s.texengine = true ∧ s.inlinetex = false)) ∧
    (E.latex s.texengine = true → s.inlinetex = false →
      [Tok.str "\\textheight=", .num (s.box.top - s.box.bottom + 18), .str "bp",
        .newl, .str "\\textwidth=", .num (s.box.right - s.box.left + 18),
        .str "bp", .newl] <:+: (s.emit E.texdefines).written s.prologue) := by
  rw [written_of_out _ _ _ (prologue_out s)]
  refine ⟨fun hw => ?_, fun hh => ?_, ?_, ?_, fun hl hi => ?_⟩
  · have hw1 : ¬ 0 < s.box.right - s.box.left := not_lt.mpr hw
    cases hi : s.inlinetex <;> cases hp : E.pdf s.texengine <;>
      cases hl : E.latex s.texengine <;>
      by_cases hh : 0 < s.box.top - s.box.bottom <;>
      simp [hw1, hh]
  · have hh1 : ¬ 0 < s.box.top - s.box.bottom := not_lt.mpr hh
    cases hi : s.inlinetex <;> cases hp : E.pdf s.texengine <;>
      cases hl : E.latex s.texengine <;>
      by_cases hw : 0 < s.box.right - s.box.left <;>
      simp [hh1, hw]
  · cases hi : s.inlinetex <;> cases hp : E.pdf s.texengine <;>
      cases hl : E.latex s.texengine <;>
      by_cases hw : 0 < s.box.right - s.box.left <;>
      by_cases hh : 0 < s.box.top - s.box.bottom <;>
      simp [hw, hh]
  · cases hi : s.inlinetex <;> cases hp : E.pdf s.texengine <;>
      cases hl : E.latex s.texengine <;>
      by_cases hw : 0 < s.box.right - s.box.left <;>
      by_cases hh : 0 < s.box.top - s.box.bottom <;>
      simp [hw, hh]
  · refine ⟨(if E.pdf s.texengine = true ∧ s.inlinetex = false then
          (if 0 < s.box.right - s.box.left then
            [Tok.str "\\pdfpagewidth=", .num (s.box.right - s.box.left),
             .str "bp", .newl] else []) ++
          (if 0 < s.box.top - s.box.bottom then
            [Tok.str "\\pdfpageheight=", .num (s.box.top - s.box.bottom),
             .str "bp", .newl] else [])
        else []) ++
        [Tok.str "\\setlength\x7b\\unitlength\x7d\x7b1pt\x7d", .newl,
         .str "\\pagestyle\x7bempty\x7d", .newl],
      (if E.pdf s.texengine = true then
          [Tok.str "\\oddsidemargin=-89.9pt", .newl,
           .str "\\evensidemargin=\\oddsidemargin", .newl,
           .str "\\topmargin=-109.27pt", .newl] else []) ++
        [Tok.str "\\begin\x7bdocument\x7d", .newl], ?_⟩
    simp [hl, hi]

/-- Instance of `prologue_nonpositive_dimension`: a `pdflatex` emitter, not
inline, on the empty box (0,0,0,0): no page-size directive, and the
`\textwidth=` line all the same. -/
theorem prologue_nonpositive_dimension_witness :
    ((0 : ℚ) - 0 ≤ 0) ∧
    Tok.str "\\pdfpagewidth=" ∉
      (texfile.emit
          ({ stdFile "pdflatex" false with box := ⟨0, 0, 0, 0⟩ } :
            texfile (stdEnv "pdflatex" false))
          (stdEnv "pdflatex" false).texdefines).written
        (texfile.prologue
          ({ stdFile "pdflatex" false with box := ⟨0, 0, 0, 0⟩ } :
            texfile (stdEnv "pdflatex" false))) ∧
    Tok.str "\\textwidth=" ∈
      (texfile.emit
          ({ stdFile "pdflatex" false with box := ⟨0, 0, 0, 0⟩ } :
            texfile (stdEnv "pdflatex" false))
          (stdEnv "pdflatex" false).texdefines).written
        (texfile.prologue
          ({ stdFile "pdflatex" false with box := ⟨0, 0, 0, 0⟩ } :
            texfile (stdEnv "pdflatex" false))) :=
  ⟨by norm_num,
   (prologue_nonpositive_dimension (stdEnv "pdflatex" false)
      { stdFile "pdflatex" false with box := ⟨0, 0, 0, 0⟩ }).1 (by norm_num),
   (prologue_nonpositive_dimension (stdEnv "pdflatex" false)
      { stdFile "pdflatex" false with box := ⟨0, 0, 0, 0⟩ }).2.2.1.mpr
      ⟨by decide, rfl⟩⟩

/-- C13: on a LaTeX engine, PDF-producing or not, and an inline emitter,
for every box, what `prologue` inserts into the main stream after the
collaborator's definitions is the single line
`\setlength{\unitlength}{1pt}`: no `\pagestyle`, `\textheight`,
`\textwidth`, margin, `\pdfpagewidth`, `\pdfpageheight` or
`\begin{document}` line. -/
theorem prologue_inline_latex (E : Env) (s : texfile E)
    (hlatex : E.latex s.texengine = true) (hinline : s.inlinetex = true) :
    s.prologue.out = s.out ++ E.texdefines ++
      [.str "\\setlength\x7b\\unitlength\x7d\x7b1pt\x7d", .newl] ∧
    (s.emit E.texdefines).written s.prologue =
      [.str "\\setlength\x7b\\unitlength\x7d\x7b1pt\x7d", .newl] ∧
    render ((s.emit E.texdefines).written s.prologue) =
      "\\setlength\x7b\\unitlength\x7d\x7b1pt\x7d\n" ∧
    (∀ head ∈ ["\\pagestyle\x7bempty\x7d", "\\textheight=", "\\textwidth=",
        "\\oddsidemargin=-89.9pt", "\\evensidemargin=\\oddsidemargin",
        "\\topmargin=-109.27pt", "\\pdfpagewidth=", "\\pdfpageheight=",
        "\\begin\x7bdocument\x7d"],
      Tok.str head ∉ (s.emit E.texdefines).written s.prologue) := by
  have hout : s.prologue.out = s.out ++ E.texdefines ++
      [.str "\\setlength\x7b\\unitlength\x7d\x7b1pt\x7d", .newl] := by
    rw [prologue_out]
    simp [hlatex, hinline]
  have hw : (s.emit E.texdefines).written s.prologue =
      [.str "\\setlength\x7b\\unitlength\x7d\x7b1pt\x7d", .newl] :=
    written_of_out _ _ _ (by rw [hout]; rfl)
  refine ⟨hout, hw, ?_, ?_⟩
  · rw [hw]; decide
  · rw [hw]
    intro head hmem
    simp only [List.mem_cons, List.mem_singleton, List.not_mem_nil, or_false] at hmem
    rcases hmem with h | h | h | h | h | h | h | h | h <;> subst h <;> decide

/-- Instance of `prologue_inline_latex`: an inline `pdflatex` emitter. -/
theorem prologue_inline_latex_witness :
    (stdEnv "pdflatex" true).latex "pdflatex" = true ∧
    (stdFile "pdflatex" true).prologue.out =
      (stdFile "pdflatex" true).out ++ (stdEnv "pdflatex" true).texdefines ++
        [.str "\\setlength\x7b\\unitlength\x7d\x7b1pt\x7d", .newl] :=
  ⟨by decide,
   (prologue_inline_latex (stdEnv "pdflatex" true) (stdFile "pdflatex" true)
      (by decide) rfl).1⟩

/-! ## Fonts and the pen cache -/

/-- The content of the stream after `setfont`: the font-size line under its
test, then the font line under its test. -/
theorem setfont_out (s : texfile E) (p : E.Pen) :
    (s.setfont p).out = s.out ++
      ((if E.latex s.texengine = true ∧
            (E.size p ≠ E.size s.lastpen ∨ E.Lineskip p ≠ E.Lineskip s.lastpen) then
          [Tok.str "\\fontsize\x7b", .num (E.size p), .str "\x7d\x7b",
           .num (E.Lineskip p), .str "\x7d\\selectfont", .newl]
        else []) ++
       (if E.Font p ≠ E.Font s.lastpen then
          [Tok.str (E.Font p), .str "%", .newl]
        else [])) := by
  cases hl : E.latex s.texengine <;>
    by_cases hs : E.size p = E.size s.lastpen <;>
    by_cases hk : E.Lineskip p = E.Lineskip s.lastpen <;>
    by_cases hf : E.Font p = E.Font s.lastpen <;>
    simp [texfile.setfont, hl, hs, hk, hf]

/-- C14: `setfont(p)` inserts the `\fontsize{size}{lineskip}\selectfont`
line if and only if the engine is LaTeX and the size or the line skip of `p`
differs from that of the cached pen; it inserts the line made of the font
string of `p` and `%` if and only if that string differs from the font string
of the cached pen, for every engine; the font-size line comes first when
both are inserted, and nothing else is inserted. -/
theorem setfont_written (E : Env) (s : texfile E) (p : E.Pen) :
    (s.setfont p).out = s.out ++
      ((if E.latex s.texengine = true ∧
            (E.size p ≠ E.size s.lastpen ∨ E.Lineskip p ≠ E.Lineskip s.lastpen) then
          [Tok.str "\\fontsize\x7b", .num (E.size p), .str "\x7d\x7b",
           .num (E.Lineskip p), .str "\x7d\\selectfont", .newl]
        else []) ++
       (if E.Font p ≠ E.Font s.lastpen then
          [Tok.str (E.Font p), .str "%", .newl]
        else [])) ∧
    ([Tok.str "\\fontsize\x7b", .num (E.size p), .str "\x7d\x7b",
        .num (E.Lineskip p), .str "\x7d\\selectfont", .newl] <+:
        s.written (s.setfont p) ↔
      (E.latex s.texengine = true ∧
        (E.size p ≠ E.size s.lastpen ∨ E.Lineskip p ≠ E.Lineskip s.lastpen))) ∧
    ([Tok.str (E.Font p), .str "%", .newl] <:+ s.written (s.setfont p) ↔
      E.Font p ≠ E.Font s.lastpen) := by
  have hout : (s.setfont p).out = s.out ++
      ((if E.latex s.texengine = true ∧
            (E.size p ≠ E.size s.lastpen ∨ E.Lineskip p ≠ E.Lineskip s.lastpen) then
          [Tok.str "\\fontsize\x7b", .num (E.size p), .str "\x7d\x7b",
           .num (E.Lineskip p), .str "\x7d\\selectfont", .newl]
        else []) ++
       (if E.Font p ≠ E.Font s.lastpen then
          [Tok.str (E.Font p), .str "%", .newl]
        else [])) := setfont_out s p
  refine ⟨hout, ?_, ?_⟩
  · rw [written_of_out _ _ _ hout]
    by_cases hc : E.latex s.texengine = true ∧
        (E.size p ≠ E.size s.lastpen ∨ E.Lineskip p ≠ E.Lineskip s.lastpen)
    · simp only [hc, if_true, iff_true, and_self]
      exact ⟨_, rfl⟩
    · simp only [hc, if_false, iff_false, List.nil_append]
      rintro ⟨r, hr⟩
      have hlen := congrArg List.length hr
      split at hlen <;> simp at hlen
  · rw [written_of_out _ _ _ hout]
    by_cases hf : E.Font p = E.Font s.lastpen
    · simp only [hf, ne_eq, not_true_eq_false, if_false, List.append_nil, iff_false]
      rintro ⟨r, hr⟩
      have hrev := congrArg List.reverse hr
      split at hrev <;> simp at hrev
    · simp only [hf, ne_eq, not_false_eq_true, if_true, iff_true]
      exact ⟨_, rfl⟩

/-- C15: after `setpen(p)` the cached pen is the normalized pen
`convert(p)` itself, whole, whenever the normalized pen does not compare
equal to the previous cache; otherwise the call returns at once and the
cache, which compares equal to the normalized pen, stays. So the cache is
the normalized pen or compares equal to it, whatever was inserted, and with
a reflexive pen equality it compares equal to it in every case. -/
theorem setpen_cache (E : Env) (s : texfile E) (p : E.Pen) :
    (E.peneq (E.convert p) s.lastpen = false →
      (s.setpen p).lastpen = E.convert p) ∧
    (E.peneq (E.convert p) s.lastpen = true →
      s.setpen p = s ∧ E.peneq (E.convert p) (s.setpen p).lastpen = true) ∧
    ((s.setpen p).lastpen = E.convert p ∨
      ((s.setpen p).lastpen = s.lastpen ∧
        E.peneq (E.convert p) (s.setpen p).lastpen = true)) ∧
    ((∀ q : E.Pen, E.peneq q q = true) →
      E.peneq (E.convert p) (s.setpen p).lastpen = true) := by
  have hne : E.peneq (E.convert p) s.lastpen = false →
      (s.setpen p).lastpen = E.convert p := by
    intro h
    simp [texfile.setpen, h, setfont_lastpen]
  have heq : E.peneq (E.convert p) s.lastpen = true → s.setpen p = s := by
    intro h
    simp [texfile.setpen, h]
  refine ⟨hne, fun h => ⟨heq h, by rw [heq h]; exact h⟩, ?_, fun hrefl => ?_⟩
  · cases h : E.peneq (E.convert p) s.lastpen
    · exact Or.inl (hne h)
    · exact Or.inr ⟨by rw [heq h], by rw [heq h]; exact h⟩
  · cases h : E.peneq (E.convert p) s.lastpen
    · rw [hne h]; exact hrefl _
    · rw [heq h]; exact h

/-- Instance of `setpen_cache`: `cyanPen` on a fresh `latex` emitter, whose
cache is the reset pen; afterwards the cache is `cyanPen`. -/
theorem setpen_cache_witness :
    (stdEnv "latex" false).peneq ((stdEnv "latex" false).convert cyanPen)
        (stdFile "latex" false).lastpen = false ∧
    ((stdFile "latex" false).setpen cyanPen).lastpen = cyanPen :=
  ⟨by decide,
   (setpen_cache (stdEnv "latex" false) (stdFile "latex" false) cyanPen).1
     (by decide)⟩

/-! ## The colour cascade -/

/-- The test of a branch of `setlatexcolor` is the test of section 4.3:
the model is set in `p`, and unset or different in the cached pen. -/
theorem changed_cmyk (E : Env) (p q : E.Pen) :
    (modelSet E .cmyk p && (!modelSet E .cmyk q || modelDiffers E .cmyk p q)) =
      (E.cmyk p && (!E.cmyk q ||
        (E.cyan p != E.cyan q || E.magenta p != E.magenta q ||
         E.yellow p != E.yellow q || E.black p != E.black q))) := by
  rw [Bool.eq_iff_iff]
  simp [modelSet, modelDiffers, or_assoc]

theorem changed_rgb (E : Env) (p q : E.Pen) :
    (modelSet E .rgb p && (!modelSet E .rgb q || modelDiffers E .rgb p q)) =
      (E.rgb p && (!E.rgb q ||
        (E.red p != E.red q || E.green p != E.green q ||
         E.blue p != E.blue q))) := by
  rw [Bool.eq_iff_iff]
  simp [modelSet, modelDiffers, or_assoc]

theorem changed_grayscale (E : Env) (p q : E.Pen) :
    (modelSet E .grayscale p &&
        (!modelSet E .grayscale q || modelDiffers E .grayscale p q)) =
      (E.grayscale p && (!E.grayscale q || E.gray p != E.gray q)) := by
  rw [Bool.eq_iff_iff]
  simp [modelSet, modelDiffers]

/-- The method `setlatexcolor` inserts the directive of the first changed
model of section 4.3, or nothing when there is none. -/
theorem setlatexcolor_eq (s : texfile E) (p : E.Pen) :
    s.setlatexcolor p =
      s.emit (match firstChangedModel E p s.lastpen with
        | some m => colorDirective E p m
        | none => []) := by
  simp only [firstChangedModel, List.find?_cons, List.find?_nil, changed_cmyk,
    changed_rgb, changed_grayscale, texfile.setlatexcolor]
  cases h1 : (E.cmyk p && (!E.cmyk s.lastpen ||
      (E.cyan p != E.cyan s.lastpen ||
       E.magenta p != E.magenta s.lastpen ||
       E.yellow p != E.yellow s.lastpen ||
       E.black p != E.black s.lastpen))) <;>
    cases h2 : (E.rgb p && (!E.rgb s.lastpen ||
      (E.red p != E.red s.lastpen ||
       E.green p != E.green s.lastpen ||
       E.blue p != E.blue s.lastpen))) <;>
    cases h3 : (E.grayscale p && (!E.grayscale s.lastpen ||
      E.gray p != E.gray s.lastpen)) <;>
    simp [colorDirective, emit_nil]

/-- C16: `setlatexcolor(p)` inserts the directive of the first model, in the
order CMYK, RGB, Grayscale, that `p` has set and that the cached pen does
not have set or has with a different component, and nothing else; so it
inserts at most one `\definecolor` directive, and it inserts nothing when
every model `p` has set is set in the cached pen with equal components, in
particular when `p` has no model set. -/
theorem setlatexcolor_first_changed (E : Env) (s : texfile E) (p : E.Pen) :
    s.written (s.setlatexcolor p) =
      (match firstChangedModel E p s.lastpen with
        | some m => colorDirective E p m
        | none => []) ∧
    (s.setlatexcolor p).lastpen = s.lastpen ∧
    (s.written (s.setlatexcolor p)).countP opensDefinecolor ≤ 1 ∧
    ((∀ m : ColorModel, modelSet E m p = true →
        modelSet E m s.lastpen = true ∧ modelDiffers E m p s.lastpen = false) →
      s.setlatexcolor p = s ∧ s.written (s.setlatexcolor p) = []) ∧
    ((∀ m : ColorModel, modelSet E m p = false) → s.setlatexcolor p = s) := by
  have hw : s.written (s.setlatexcolor p) =
      (match firstChangedModel E p s.lastpen with
        | some m => colorDirective E p m
        | none => []) :=
    written_of_out _ _ _ (by rw [setlatexcolor_eq]; rfl)
  have hnone : (∀ m : ColorModel, modelSet E m p = true →
        modelSet E m s.lastpen = true ∧ modelDiffers E m p s.lastpen = false) →
      firstChangedModel E p s.lastpen = none := by
    intro h
    simp only [firstChangedModel, List.find?_eq_none]
    intro m _
    cases hm : modelSet E m p
    · simp
    · obtain ⟨h1, h2⟩ := h m hm
      simp [h1, h2]
  refine ⟨hw, by rw [setlatexcolor_eq]; rfl, ?_, fun h => ?_, fun h => ?_⟩
  · rw [hw]
    cases hf : firstChangedModel E p s.lastpen with
    | none => simp
    | some m => cases m <;> simp [colorDirective, opensDefinecolor, List.countP_cons]
  · have h0 := hnone h
    refine ⟨?_, by rw [hw, h0]⟩
    rw [setlatexcolor_eq, h0]
    exact emit_nil s
  · have h0 := hnone (fun m hm => by rw [h m] at hm; exact absurd hm (by decide))
    rw [setlatexcolor_eq, h0]
    exact emit_nil s

/-- Instance of `setlatexcolor_first_changed`: `cyanPen` against a cache
that already holds `cyanPen`; every model set in the pen is set in the cache
with equal components, and nothing is inserted. -/
theorem setlatexcolor_first_changed_witness :
    (∀ m : ColorModel, modelSet (stdEnv "latex" false) m cyanPen = true →
      modelSet (stdEnv "latex" false) m cyanPen = true ∧
        modelDiffers (stdEnv "latex" false) m cyanPen cyanPen = false) ∧
    texfile.setlatexcolor
        ({ stdFile "latex" false with lastpen := cyanPen } :
          texfile (stdEnv "latex" false)) cyanPen =
      { stdFile "latex" false with lastpen := cyanPen } ∧
    firstChangedModel (stdEnv "latex" false) cyanPen
        (stdFile "latex" false).lastpen = some .cmyk :=
  ⟨fun m hm => ⟨hm, by cases m <;> simp [modelDiffers]⟩,
   ((setlatexcolor_first_changed (stdEnv "latex" false)
      { stdFile "latex" false with lastpen := cyanPen } cyanPen).2.2.2.1
      (fun m hm => ⟨hm, by cases m <;> simp [modelDiffers]⟩)).1,
   by decide⟩

/-! ## The image-inclusion directive -/

/-- C17: on a non-degenerate box, for every layer name and inline flag,
`beginlayer` opens with `\includegraphics`, then the clause
`[bb=left bottom right top]` if and only if the engine is not PDF-producing,
then `{name}%` and the end of the line; for a PDF-producing engine the
directive is `\includegraphics{name}%` with no bounding-box clause. Only the
kern line of a non-inline emitter follows. -/
theorem beginlayer_bb_clause (E : Env) (s : texfile E) (psname : String)
    (hw : s.box.right > s.box.left) (hh : s.box.top > s.box.bottom) :
    (E.pdf s.texengine = false →
      s.written (s.beginlayer psname) =
        [.str "\\includegraphics",
         .str "[bb=", .num s.box.left, .str " ", .num s.box.bottom, .str " ",
         .num s.box.right, .str " ", .num s.box.top, .str "]",
         .str "\x7b", .str psname, .str "\x7d%", .newl] ++
        (if s.inlinetex then [] else kernLine E s.box)) ∧
    (E.pdf s.texengine = true →
      s.written (s.beginlayer psname) =
        [.str "\\includegraphics", .str "\x7b", .str psname, .str "\x7d%", .newl] ++
        (if s.inlinetex then [] else kernLine E s.box)) ∧
    ([Tok.str "\\includegraphics",
        .str "[bb=", .num s.box.left, .str " ", .num s.box.bottom, .str " ",
        .num s.box.right, .str " ", .num s.box.top, .str "]",
        .str "\x7b", .str psname, .str "\x7d%", .newl] <+:
        s.written (s.beginlayer psname) ↔
      E.pdf s.texengine = false) ∧
    ([Tok.str "\\includegraphics", .str "\x7b", .str psname, .str "\x7d%", .newl] <+:
        s.written (s.beginlayer psname) ↔
      E.pdf s.texengine = true) ∧
    render [.str "\\includegraphics", .str "\x7b", .str psname, .str "\x7d%", .newl] =
      "\\includegraphics" ++ ("\x7b" ++ (psname ++ ("\x7d%" ++ "\n"))) := by
  have hw1 : s.box.left < s.box.right := hw
  have hh1 : s.box.bottom < s.box.top := hh
  have hout : (s.beginlayer psname).out = s.out ++
      ((if E.pdf s.texengine = true then
          [Tok.str "\\includegraphics", .str "\x7b", .str psname, .str "\x7d%", .newl]
        else
          [Tok.str "\\includegraphics",
           .str "[bb=", .num s.box.left, .str " ", .num s.box.bottom, .str " ",
           .num s.box.right, .str " ", .num s.box.top, .str "]",
           .str "\x7b", .str psname, .str "\x7d%", .newl]) ++
        (if s.inlinetex then [] else kernLine E s.box)) := by
    cases hi : s.inlinetex <;> cases hp : E.pdf s.texengine <;>
      simp [texfile.beginlayer, kernLine, hw1, hh1, hi, hp]
  rw [written_of_out _ _ _ hout]
  refine ⟨fun hp => by simp [hp], fun hp => by simp [hp], ?_, ?_, ?_⟩
  · cases hp : E.pdf s.texengine
    · simp only [Bool.false_eq_true, if_false, iff_true]
      exact ⟨_, rfl⟩
    · simp only [if_true, Bool.true_eq_false, iff_false]
      rintro ⟨r, hr⟩
      simp at hr
  · cases hp : E.pdf s.texengine
    · simp only [Bool.false_eq_true, if_false, iff_false]
      rintro ⟨r, hr⟩
      simp at hr
    · simp only [if_true, iff_true]
      exact ⟨_, rfl⟩
  · simp [render]

/-- Instance of `beginlayer_bb_clause`: the box (0,0,100,50) on a `latex`
emitter, which is not PDF-producing and here not inline. -/
theorem beginlayer_bb_clause_witness :
    ((100 : ℚ) > 0 ∧ (50 : ℚ) > 0) ∧
    (stdFile "latex" false).written ((stdFile "latex" false).beginlayer "fig.eps") =
      [.str "\\includegraphics",
       .str "[bb=", .num 0, .str " ", .num 0, .str " ",
       .num 100, .str " ", .num 50, .str "]",
       .str "\x7b", .str "fig.eps", .str "\x7d%", .newl] ++
      (if false then [] else kernLine (stdEnv "latex" false) ⟨0, 0, 100, 50⟩) :=
  ⟨⟨by norm_num, by norm_num⟩,
   (beginlayer_bb_clause (stdEnv "latex" false) (stdFile "latex" false) "fig.eps"
      (by norm_num [stdFile]) (by norm_num [stdFile])).1 (by decide)⟩

/-! ## Document delimiters -/

/-- C18: what `prologue` inserts after the collaborator's definitions holds
a `\begin{document}` line if and only if the engine is LaTeX and the emitter
is not inline, and after any calls between the two, what `epilogue` inserts
holds an `\end{document}` line under the same condition; so `prologue`
inserts the one if and only if `epilogue` inserts the other, and as many
times (once or not at all). -/
theorem document_delimiters_balanced (E : Env) (s : texfile E)
    (cs : List (Call E)) :
    (Tok.str "\\begin\x7bdocument\x7d" ∈ (s.emit E.texdefines).written s.prologue ↔
      (E.latex s.texengine = true ∧ s.inlinetex = false)) ∧
    (Tok.str "\\end\x7bdocument\x7d" ∈
        (s.prologue.calls cs).written (s.prologue.calls cs).epilogue ↔
      (E.latex s.texengine = true ∧ s.inlinetex = false)) ∧
    (Tok.str "\\begin\x7bdocument\x7d" ∈ (s.emit E.texdefines).written s.prologue ↔
      Tok.str "\\end\x7bdocument\x7d" ∈
        (s.prologue.calls cs).written (s.prologue.calls cs).epilogue) ∧
    ((s.emit E.texdefines).written s.prologue).count (.str "\\begin\x7bdocument\x7d") =
      ((s.prologue.calls cs).written (s.prologue.calls cs).epilogue).count
        (.str "\\end\x7bdocument\x7d") ∧
    ((s.emit E.texdefines).written s.prologue).count (.str "\\begin\x7bdocument\x7d") ≤ 1 := by
  obtain ⟨he, hi, _, _⟩ := calls_config cs s.prologue
  obtain ⟨he0, hi0, _, _⟩ := prologue_config s
  have hepi : (s.prologue.calls cs).written (s.prologue.calls cs).epilogue =
      (if E.latex s.texengine = true then
        (if s.inlinetex = false then
          [Tok.str "\\end\x7bdocument\x7d", .newl] else [])
       else [Tok.str "\\bye", .newl]) := by
    apply written_of_out
    generalize s.prologue.calls cs = u at he hi
    rw [he0] at he
    rw [hi0] at hi
    cases hl : E.latex s.texengine <;> cases hn : s.inlinetex <;>
      simp [texfile.epilogue, he, hi, hl, hn]
  rw [written_of_out _ _ _ (prologue_out s), hepi]
  cases hl : E.latex s.texengine <;> cases hn : s.inlinetex <;>
    cases hp : E.pdf s.texengine <;>
    by_cases hw : 0 < s.box.right - s.box.left <;>
    by_cases hh : 0 < s.box.top - s.box.bottom <;>
    simp [hw, hh, List.count_cons]

/-! ## Labels and shifted paths -/

/-- C19: `writeshifted` hands the path writer the path moved by the
translation `shift(-Hoffset, -box.bottom)`, and the anchor `put` inserts for
a non-empty label at `z` is `ps2tex` times the image of `z` under this same
translation, in each coordinate; so for every emitter, inline or not, labels
and shifted paths are placed in one frame. -/
theorem put_anchor_shifted (E : Env) (s : texfile E) (p : E.Path)
    (newPath : Bool) (label : String) (hlabel : label ≠ "") (T : transform)
    (z align : pair) :
    s.writeshifted p newPath =
      s.emit (E.write (E.transformed p (shift ⟨-s.Hoffset, -s.box.bottom⟩)) newPath) ∧
    (shift ⟨-s.Hoffset, -s.box.bottom⟩).apply z =
      ⟨z.x - s.Hoffset, z.y - s.box.bottom⟩ ∧
    s.written (s.put label T z align) =
      labelMacro
        ⟨E.ps2tex * ((shift ⟨-s.Hoffset, -s.box.bottom⟩).apply z).x,
         E.ps2tex * ((shift ⟨-s.Hoffset, -s.box.bottom⟩).apply z).y⟩
        align T.xx ((if E.pdf s.texengine then 1 else -1) * T.yx)
        ((if E.pdf s.texengine then 1 else -1) * T.xy) T.yy label := by
  have happ : (shift ⟨-s.Hoffset, -s.box.bottom⟩).apply z =
      ⟨z.x - s.Hoffset, z.y - s.box.bottom⟩ := by
    simp only [shift, transform.apply, pair.mk.injEq]
    constructor <;> ring
  refine ⟨rfl, happ, ?_⟩
  apply written_of_out
  rw [happ]
  simp only [texfile.put, if_neg hlabel, emit_out, emit_Hoffset, emit_box,
    emit_texengine, labelMacro, List.append_assoc, List.cons_append,
    List.nil_append, mul_comm E.ps2tex]

/-- Instance of `put_anchor_shifted`: an inline `pdflatex` emitter on the
box (0,0,100,50), whose `Hoffset` is 100, and a label at (30,20). -/
theorem put_anchor_shifted_witness :
    ("A" : String) ≠ "" ∧
    (shift ⟨-(100 : ℚ), -(0 : ℚ)⟩).apply ⟨30, 20⟩ = ⟨30 - 100, 20 - 0⟩ ∧
    (stdFile "pdflatex" true).written
        ((stdFile "pdflatex" true).put "A" ⟨0, 0, 1, 0, 0, 1⟩ ⟨30, 20⟩ ⟨0, 0⟩) =
      labelMacro
        ⟨(stdEnv "pdflatex" true).ps2tex *
            ((shift ⟨-(100 : ℚ), -(0 : ℚ)⟩).apply ⟨30, 20⟩).x,
         (stdEnv "pdflatex" true).ps2tex *
            ((shift ⟨-(100 : ℚ), -(0 : ℚ)⟩).apply ⟨30, 20⟩).y⟩
        ⟨0, 0⟩ 1
        ((if (stdEnv "pdflatex" true).pdf "pdflatex" then 1 else -1) * 0)
        ((if (stdEnv "pdflatex" true).pdf "pdflatex" then 1 else -1) * 0) 1 "A" :=
  ⟨by decide,
   (put_anchor_shifted (stdEnv "pdflatex" true) (stdFile "pdflatex" true) []
      true "A" (by decide) ⟨0, 0, 1, 0, 0, 1⟩ ⟨30, 20⟩ ⟨0, 0⟩).2.1,
   (put_anchor_shifted (stdEnv "pdflatex" true) (stdFile "pdflatex" true) []
      true "A" (by decide) ⟨0, 0, 1, 0, 0, 1⟩ ⟨30, 20⟩ ⟨0, 0⟩).2.2⟩

/-! ## Calls that only append -/

/-- What `setpen` inserts, as a function of the pen, the cached pen and the
engine alone. -/
theorem setpen_written (s : texfile E) (p : E.Pen) :
    s.written (s.setpen p) =
      if E.peneq (E.convert p) s.lastpen = true then []
      else
        (if E.latex s.texengine = true then
          (match firstChangedModel E (E.convert p) s.lastpen with
            | some m => colorDirective E (E.convert p) m
            | none => [])
         else
          E.setcolor (E.convert p) s.lastpen (E.beginspecial s.texengine)
            E.endspecial) ++
        ((if E.latex s.texengine = true ∧
              (E.size (E.convert p) ≠ E.size s.lastpen ∨
                E.Lineskip (E.convert p) ≠ E.Lineskip s.lastpen) then
            [Tok.str "\\fontsize\x7b", .num (E.size (E.convert p)), .str "\x7d\x7b",
             .num (E.Lineskip (E.convert p)), .str "\x7d\\selectfont", .newl]
          else []) ++
         (if E.Font (E.convert p) ≠ E.Font s.lastpen then
            [Tok.str (E.Font (E.convert p)), .str "%", .newl]
          else [])) := by
  apply written_of_out
  cases hq : E.peneq (E.convert p) s.lastpen
  · cases hl : E.latex s.texengine
    · simp [texfile.setpen, hq, hl, setfont_out]
    · simp [texfile.setpen, hq, hl, setfont_out, setlatexcolor_eq]
  · simp [texfile.setpen, hq]

/-- A call of `put`, `beginlayer`, `endlayer`, `beginspecial`, `endspecial`,
`beginraw`, `endraw` or `epilogue` only appends to the stream. -/
theorem call_appendsOnly (s : texfile E) (c : Call E)
    (h : c.appendsOnly = true) : ∃ items, s.call c = s.emit items := by
  cases c <;> simp only [Call.appendsOnly, Bool.false_eq_true] at h <;>
    simp only [texfile.call, texfile.beginlayer, texfile.endlayer,
      texfile.beginspecial, texfile.endspecial, texfile.beginraw, texfile.endraw,
      texfile.put, texfile.epilogue, emit_texengine, emit_inlinetex, emit_box,
      emit_Hoffset] <;>
    (repeat' split) <;>
    first
      | exact ⟨[], (emit_nil _).symm⟩
      | exact ⟨_, rfl⟩
      | (simp only [emit_emit]; exact ⟨_, rfl⟩)

/-- A sequence of such calls only appends to the stream. -/
theorem calls_appendsOnly (cs : List (Call E)) (s : texfile E)
    (h : ∀ c ∈ cs, c.appendsOnly = true) : ∃ items, s.calls cs = s.emit items := by
  induction cs generalizing s with
  | nil => exact ⟨[], (emit_nil s).symm⟩
  | cons c cs ih =>
    obtain ⟨a, ha⟩ := call_appendsOnly s c (h c (List.mem_cons_self c cs))
    obtain ⟨b, hb⟩ := ih (s.call c) (fun d hd => h d (List.mem_cons_of_mem c hd))
    refine ⟨a ++ b, ?_⟩
    simp only [texfile.calls, List.foldl_cons] at hb ⊢
    rw [hb, ha, emit_emit]

/-- C20: any sequence of calls of `put`, `beginlayer`, `endlayer`,
`beginspecial`, `endspecial`, `beginraw`, `endraw` and `epilogue` leaves the
cached pen, the box, `Hoffset`, the engine and the inline flag as they are
and only appends to the stream; so a `setpen(p)` issued after the sequence
inserts exactly what it would have inserted before it, and leaves the same
cached pen. -/
theorem appendsOnly_frame (E : Env) (s : texfile E) (cs : List (Call E))
    (hcs : ∀ c ∈ cs, c.appendsOnly = true) (p : E.Pen) :
    (s.calls cs).lastpen = s.lastpen ∧ (s.calls cs).box = s.box ∧
    (s.calls cs).Hoffset = s.Hoffset ∧ (s.calls cs).texengine = s.texengine ∧
    (s.calls cs).inlinetex = s.inlinetex ∧
    s.calls cs = s.emit (s.written (s.calls cs)) ∧
    (s.calls cs).out = s.out ++ s.written (s.calls cs) ∧
    (s.calls cs).written ((s.calls cs).setpen p) = s.written (s.setpen p) ∧
    ((s.calls cs).setpen p).lastpen = (s.setpen p).lastpen := by
  obtain ⟨items, hitems⟩ := calls_appendsOnly cs s hcs
  have hw : s.written (s.calls cs) = items :=
    written_of_out _ _ _ (by rw [hitems]; rfl)
  rw [hw, hitems]
  refine ⟨rfl, rfl, rfl, rfl, rfl, rfl, rfl, ?_, ?_⟩
  · rw [setpen_written, setpen_written]
    rfl
  · cases hq : E.peneq (E.convert p) s.lastpen <;>
      simp [texfile.setpen, hq, setfont_lastpen]

/-- Instance of `appendsOnly_frame`: a layer, a label and the epilogue on a
`latex` emitter; `setpen(cyanPen)` inserts afterwards what it would have
inserted on the fresh emitter. -/
theorem appendsOnly_frame_witness :
    (∀ c ∈ ([.beginlayer "fig.eps", .put "A" ⟨0, 0, 1, 0, 0, 1⟩ ⟨3, 4⟩ ⟨0, 0⟩,
        .endlayer, .epilogue] : List (Call (stdEnv "latex" false))),
      c.appendsOnly = true) ∧
    ((stdFile "latex" false).calls
        [.beginlayer "fig.eps", .put "A" ⟨0, 0, 1, 0, 0, 1⟩ ⟨3, 4⟩ ⟨0, 0⟩,
          .endlayer, .epilogue]).written
      (((stdFile "latex" false).calls
        [.beginlayer "fig.eps", .put "A" ⟨0, 0, 1, 0, 0, 1⟩ ⟨3, 4⟩ ⟨0, 0⟩,
          .endlayer, .epilogue]).setpen cyanPen) =
      (stdFile "latex" false).written ((stdFile "latex" false).setpen cyanPen) :=
  ⟨by
     intro c hc
     simp only [List.mem_cons, List.mem_singleton, List.not_mem_nil, or_false] at hc
     rcases hc with h | h | h | h <;> subst h <;> rfl,
   (appendsOnly_frame (stdEnv "latex" false) (stdFile "latex" false)
      [.beginlayer "fig.eps", .put "A" ⟨0, 0, 1, 0, 0, 1⟩ ⟨3, 4⟩ ⟨0, 0⟩,
        .endlayer, .epilogue]
      (by
        intro c hc
        simp only [List.mem_cons, List.mem_singleton, List.not_mem_nil, or_false] at hc
        rcases hc with h | h | h | h <;> subst h <;> rfl)
      cyanPen).2.2.2.2.2.2.2.1⟩

end camp
